import Mathlib

/-!
Verification of the schema-enforcement pipeline of the german-mvp repository
(src/agents.py), against its natural-language specification.

The embedding models parsed JSON values as the inductive type `Json`
(Python dicts become insertion-ordered association lists, mirroring Python's
dict semantics: assignment to an existing key keeps its position, fresh keys
are appended).  Fallible Python code (code that can raise) is modelled with
`Except String`; the error strings follow the messages raised by the source
where the source raises explicitly, and name the Python exception class
(TypeError / AttributeError) where the source would fail implicitly.
-/

namespace GermanMVP

/-- A parsed JSON value, as produced by Python's `json.loads`.
Numbers are modelled as integers (the repository's schemas only use integer
ids and the concrete inputs in this development contain no floats).
Objects are insertion-ordered key/value lists with unique keys, exactly like
Python dicts. -/
inductive Json where
  | null : Json
  | bool : Bool → Json
  | num : Int → Json
  | str : String → Json
  | arr : List Json → Json
  | obj : List (String × Json) → Json

/-- Python `d[k]` / `d.get(k)` lookup on the association-list model of a dict:
the first binding of the key (keys are unique in dicts built by `json.loads`,
so this is exact). -/
def dictGet : List (String × Json) → String → Option Json
  | [], _ => none
  | (k', v') :: rest, k => if k' = k then some v' else dictGet rest k

/-- Python `d.get(k, default)`. -/
def dictGetD (kvs : List (String × Json)) (k : String) (v : Json) : Json :=
  (dictGet kvs k).getD v

/-- Python `d[k] = v`: replace the value at the first binding of `k`, keeping
its position; append a fresh binding when the key is absent (Python dicts keep
the original position of an updated key). -/
def dictSet : List (String × Json) → String → Json → List (String × Json)
  | [], k, v => [(k, v)]
  | (k', v') :: rest, k, v =>
      if k' = k then (k, v) :: rest else (k', v') :: dictSet rest k v

/-- Python `d.setdefault(k, v)`: leave the dict unchanged when the key is
present, otherwise append the binding at the end. -/
def setdefault (kvs : List (String × Json)) (k : String) (v : Json) :
    List (String × Json) :=
  match dictGet kvs k with
  | some _ => kvs
  | none => kvs ++ [(k, v)]

/-- Python `base.update(upd)` for two dicts, as used in `get_daily_plan`:
later keys overwrite earlier ones, updated keys keep their position, fresh
keys are appended in iteration order. -/
def dictUpdate (base upd : List (String × Json)) : List (String × Json) :=
  upd.foldl (fun acc kv => dictSet acc kv.1 kv.2) base

/-- Python truthiness of a parsed JSON value (`bool(x)`). -/
def jTruthy : Json → Bool
  | .null => false
  | .bool b => b
  | .num n => n != 0
  | .str s => s ≠ ""
  | .arr xs => !xs.isEmpty
  | .obj kvs => !kvs.isEmpty

/-- The characters stripped by Python's `str.strip()` (ASCII whitespace). -/
def isPySpace (c : Char) : Bool :=
  c == ' ' || c == '\t' || c == '\n' || c == '\r' || c == '\x0b' || c == '\x0c'

/-- Strip leading whitespace (`str.lstrip()`), on character lists. -/
def trimLeft (l : List Char) : List Char := l.dropWhile isPySpace

/-- Strip trailing whitespace (`str.rstrip()`), on character lists. -/
def trimRight (l : List Char) : List Char := (trimLeft l.reverse).reverse

/-- Python `str.strip()` on character lists. -/
def trimChars (l : List Char) : List Char := trimRight (trimLeft l)

/-- Python `str.strip()`. -/
def pyStrip (s : String) : String := String.mk (trimChars s.data)

/-- Whether the character list `pat` occurs at the start of `l`. -/
def beginsWith : List Char → List Char → Bool
  | [], _ => true
  | _ :: _, [] => false
  | p :: ps, c :: cs => p == c && beginsWith ps cs

/-- Whether the character list `pat` occurs contiguously anywhere in `l`
(the semantics of Python's `sub in s` for strings). -/
def containsSeq (pat : List Char) : List Char → Bool
  | [] => beginsWith pat []
  | c :: cs => beginsWith pat (c :: cs) || containsSeq pat cs

/-- The placeholder token `____` required inside exercise prompts. -/
def blankChars : List Char := ['_', '_', '_', '_']

/-- Python `"____" in s` for a string `s`. -/
def strHasBlank (s : String) : Bool := containsSeq blankChars s.data

/-- Python `"____" in v` for an arbitrary value `v` (`in` means: substring
for strings, membership for lists, key-containment for dicts, and raises
`TypeError` for values that are not containers). -/
def blankIn : Json → Except String Bool
  | .str s => .ok (strHasBlank s)
  | .arr xs => .ok (xs.any fun x => match x with | .str s => s == "____" | _ => false)
  | .obj kvs => .ok (kvs.any fun kv => kv.1 == "____")
  | _ => .error "TypeError: argument of type is not iterable"

/-- The single-quote character, used by the Python `repr` rendering below. -/
def squote : String := String.singleton (Char.ofNat 39)

mutual
/-- Python `repr(x)` for a parsed JSON value, used by `str` on lists/dicts.
This rendering is faithful for None/booleans/ints and for strings without
characters that `repr` would escape; it is only used by `_normalize_plan`'s
`str(x)` coercion of grammar examples, where no claim depends on the exact
rendering of composite values. -/
def pyRepr : Json → String
  | .null => "None"
  | .bool true => "True"
  | .bool false => "False"
  | .num n => toString n
  | .str s => squote ++ s ++ squote
  | .arr xs => "[" ++ pyReprList xs ++ "]"
  | .obj kvs => "\x7b" ++ pyReprKVs kvs ++ "\x7d"

/-- Comma-separated `repr` of list elements. -/
def pyReprList : List Json → String
  | [] => ""
  | [x] => pyRepr x
  | x :: rest => pyRepr x ++ ", " ++ pyReprList rest

/-- Comma-separated `repr` of dict items. -/
def pyReprKVs : List (String × Json) → String
  | [] => ""
  | [(k, v)] => squote ++ k ++ squote ++ ": " ++ pyRepr v
  | (k, v) :: rest => squote ++ k ++ squote ++ ": " ++ pyRepr v ++ ", " ++ pyReprKVs rest
end

/-- Python `str(x)` for a parsed JSON value. -/
def pyStr : Json → String
  | .str s => s
  | v => pyRepr v

/-! ## The parse stage: Python's `json.loads` -/

/-- JSON whitespace skipped by `json.loads` between tokens. -/
def jsonWs (c : Char) : Bool := c == ' ' || c == '\t' || c == '\n' || c == '\r'

/-- Skip JSON whitespace. -/
def skipWs (l : List Char) : List Char := l.dropWhile jsonWs

/-- The escape sequences accepted inside JSON string literals (`\uXXXX` is
not modelled; no input in this development uses it). -/
def unescapeChar (e : Char) : Option Char :=
  if e == '"' then some '"'
  else if e == '\\' then some '\\'
  else if e == '/' then some '/'
  else if e == 'b' then some '\x08'
  else if e == 'f' then some '\x0c'
  else if e == 'n' then some '\n'
  else if e == 'r' then some '\r'
  else if e == 't' then some '\t'
  else none

/-- Scan the body of a JSON string literal (the opening quote already
consumed), returning the decoded content and the remaining input after the
closing quote.  As in Python's strict `json.loads`, a raw control character
(code below 32 — in particular a raw newline or carriage return) inside the
literal is a parse error. -/
def scanString : List Char → Except String (List Char × List Char)
  | [] => .error "Unterminated string"
  | c :: rest =>
      if c == '"' then .ok ([], rest)
      else if c == '\\' then
        match rest with
        | [] => .error "Unterminated string"
        | e :: rest' =>
            match unescapeChar e with
            | some c' => (scanString rest').map fun p => (c' :: p.1, p.2)
            | none => .error "Invalid escape"
      else if c.toNat < 32 then .error "Invalid control character"
      else (scanString rest).map fun p => (c :: p.1, p.2)

/-- Numeric value of a digit run. -/
def digitsVal (l : List Char) : Int :=
  (l.foldl (fun a c => a * 10 + (c.toNat - 48)) 0 : Nat)

mutual
/-- Recursive-descent parser for one JSON value, modelling `json.loads`.
`fuel` only bounds recursion depth (the callers supply more than enough);
floats, exponents and `\uXXXX` escapes are not modelled — no input in this
development uses them. -/
def parseVal : Nat → List Char → Except String (Json × List Char)
  | 0, _ => .error "Nesting exceeded"
  | fuel + 1, l =>
      match skipWs l with
      | [] => .error "Expecting value"
      | c :: rest =>
          if c == '"' then
            (scanString rest).map fun p => (.str (String.mk p.1), p.2)
          else if c == '\x7b' then
            match skipWs rest with
            | [] => .error "Expecting property name"
            | d :: rest' =>
                if d == '\x7d' then .ok (.obj [], rest')
                else parseObjBody fuel [] (d :: rest')
          else if c == '[' then
            match skipWs rest with
            | [] => .error "Expecting value"
            | d :: rest' =>
                if d == ']' then .ok (.arr [], rest')
                else parseArrBody fuel [] (d :: rest')
          else if beginsWith ['t', 'r', 'u', 'e'] (c :: rest) then
            .ok (.bool true, (c :: rest).drop 4)
          else if beginsWith ['f', 'a', 'l', 's', 'e'] (c :: rest) then
            .ok (.bool false, (c :: rest).drop 5)
          else if beginsWith ['n', 'u', 'l', 'l'] (c :: rest) then
            .ok (.null, (c :: rest).drop 4)
          else if c == '-' then
            let ds := rest.takeWhile Char.isDigit
            if ds.isEmpty then .error "Expecting value"
            else .ok (.num (-digitsVal ds), rest.drop ds.length)
          else if c.isDigit then
            let ds := (c :: rest).takeWhile Char.isDigit
            .ok (.num (digitsVal ds), (c :: rest).drop ds.length)
          else .error "Expecting value"

/-- Parse the members of a JSON object after the opening brace (non-empty
case).  Duplicate keys behave like Python dicts: last value wins, first
position kept. -/
def parseObjBody : Nat → List (String × Json) → List Char →
    Except String (Json × List Char)
  | 0, _, _ => .error "Nesting exceeded"
  | fuel + 1, acc, l =>
      match l with
      | [] => .error "Expecting property name"
      | c :: rest =>
          if c == '"' then
            match scanString rest with
            | .error e => .error e
            | .ok (key, rest') =>
                match skipWs rest' with
                | [] => .error "Expecting colon"
                | d :: rest'' =>
                    if d == ':' then
                      match parseVal fuel rest'' with
                      | .error e => .error e
                      | .ok (v, rest''') =>
                          match skipWs rest''' with
                          | [] => .error "Expecting delimiter"
                          | d2 :: rest4 =>
                              if d2 == ',' then
                                parseObjBody fuel (dictSet acc (String.mk key) v)
                                  (skipWs rest4)
                              else if d2 == '\x7d' then
                                .ok (.obj (dictSet acc (String.mk key) v), rest4)
                              else .error "Expecting delimiter"
                    else .error "Expecting colon"
          else .error "Expecting property name"

/-- Parse the elements of a JSON array after the opening bracket (non-empty
case). -/
def parseArrBody : Nat → List Json → List Char →
    Except String (Json × List Char)
  | 0, _, _ => .error "Nesting exceeded"
  | fuel + 1, acc, l =>
      match parseVal fuel l with
      | .error e => .error e
      | .ok (v, rest) =>
          match skipWs rest with
          | [] => .error "Expecting delimiter"
          | d :: rest' =>
              if d == ',' then parseArrBody fuel (acc ++ [v]) rest'
              else if d == ']' then .ok (.arr (acc ++ [v]), rest')
              else .error "Expecting delimiter"
end

/-- Best-effort isolation of the first JSON object in `_safe_json_loads`
(src/agents.py lines 9-13): find the first `left brace` and the last
`right brace`; when both exist and the last follows the first, keep the
inclusive slice, otherwise leave the text unchanged. -/
def extractBraces (t : List Char) : List Char :=
  match t.findIdx? (fun c => c == '\x7b'), t.reverse.findIdx? (fun c => c == '\x7d') with
  | some s, some rj =>
      let e := t.length - 1 - rj
      if s < e then (t.drop s).take (e + 1 - s) else t
  | _, _ => t

/-- `_safe_json_loads` (src/agents.py lines 6-15): strip, isolate the brace
slice, then strict `json.loads` (which fails on trailing non-whitespace). -/
def safe_json_loads (text : String) : Except String Json :=
  let t := extractBraces (trimChars text.data)
  match parseVal (t.length + 1) t with
  | .error e => .error e
  | .ok (j, rest) =>
      if (skipWs rest).isEmpty then .ok j else .error "Extra data"

/-! ## The Normalizer: `_normalize_plan` (src/agents.py lines 18-75) -/

/-- The filler sentence right-padding short example lists (line 44). -/
def example_filler : String := "Beispiel: Ich habe heute Zeit."

/-- `str(x).strip()` kept only when non-empty: one step of the list
comprehension on line 42. -/
def clean_example (x : Json) : Option String :=
  let s := pyStrip (pyStr x)
  if s = "" then none else some s

/-- Lines 43-44: `while len(examples) < 3: examples.append(filler)`. -/
def pad_examples (l : List String) : List String :=
  l ++ List.replicate (3 - l.length) example_filler

/-- Lines 45-46: `if len(examples) > 5: examples = examples[:5]`. -/
def cap_examples (l : List String) : List String :=
  if l.length > 5 then l.take 5 else l

/-- The default exercise appended while fewer than 3 exercises exist
(lines 52-62), with `id = new_id`. -/
def default_exercise (i : Nat) : List (String × Json) :=
  [("id", .num i),
   ("instruction", .str "Setze das richtige Wort ein."),
   ("prompt", .str "Ich ____ heute zu Hause."),
   ("answer", .str "bin"),
   ("answer_explanation", .str "Hier steht das Verb „sein“ im Präsens: „ich bin“.")]

/-- Lines 52-62: `while len(exercises) < 3: exercises.append(default)` where
each appended default carries `id = len(exercises) + 1` at append time. -/
def pad_exercises (l : List (List (String × Json))) : List (List (String × Json)) :=
  l ++ (List.range' (l.length + 1) (3 - l.length)).map default_exercise

/-- Keep only dict-shaped entries (line 50). -/
def as_obj_kvs : Json → Option (List (String × Json))
  | .obj kvs => some kvs
  | _ => none

/-- The character list of `" ____"` appended to prompts lacking the
placeholder (line 69). -/
def spaceBlank : List Char := ' ' :: blankChars

/-- Lines 64-71, the body of `for i, ex in enumerate(exercises, start=1)`:
set `id`, default `instruction`/`prompt`, append `" ____"` to a prompt
lacking the placeholder (`.strip() + " ____"` — a `TypeError` when the
`in`-check hits a non-container prompt, an `AttributeError` when `.strip()`
hits a non-string one), and default `answer`/`answer_explanation`. -/
def fixup_exercise (i : Nat) (ex : List (String × Json)) :
    Except String (List (String × Json)) :=
  let e1 := dictSet ex "id" (.num i)
  let e2 := setdefault e1 "instruction" (.str "Setze das richtige Wort ein.")
  let e3 := setdefault e2 "prompt" (.str "Ich ____ heute zu Hause.")
  match dictGet e3 "prompt" with
  | none => .error "KeyError: prompt"
  | some v =>
      match blankIn v with
      | .error e => .error e
      | .ok true =>
          .ok (setdefault (setdefault e3 "answer" (.str ""))
                "answer_explanation" (.str ""))
      | .ok false =>
          match v with
          | .str p =>
              let e4 := dictSet e3 "prompt" (.str (String.mk (trimChars p.data ++ spaceBlank)))
              .ok (setdefault (setdefault e4 "answer" (.str ""))
                    "answer_explanation" (.str ""))
          | _ => .error "AttributeError: strip"

/-- Run `fixup_exercise` over the list with ids `i, i+1, ...`. -/
def fixup_all (i : Nat) : List (List (String × Json)) →
    Except String (List (List (String × Json)))
  | [] => .ok []
  | e :: rest =>
      match fixup_exercise i e with
      | .error msg => .error msg
      | .ok e' =>
          match fixup_all (i + 1) rest with
          | .error msg => .error msg
          | .ok rest' => .ok (e' :: rest')

/-- Whether an optional value is a list (`isinstance(..., list)`). -/
def isArr? : Option Json → Bool
  | some (.arr _) => true
  | _ => false

/-- Lines 29-73 of `_normalize_plan`: normalize the grammar sub-dict. -/
def normalize_grammar (g0 : List (String × Json)) :
    Except String (List (String × Json)) :=
  let g1 := setdefault g0 "topic" (.str "Grammatik")
  let g2 := setdefault g1 "explanation" (.str "")
  let g3 := if isArr? (dictGet g2 "examples") then g2 else dictSet g2 "examples" (.arr [])
  let g4 := if isArr? (dictGet g3 "exercises") then g3 else dictSet g3 "exercises" (.arr [])
  let exampleItems := match dictGet g4 "examples" with | some (.arr xs) => xs | _ => []
  let examples := cap_examples (pad_examples (exampleItems.filterMap clean_example))
  let g5 := dictSet g4 "examples" (.arr (examples.map Json.str))
  let exItems := match dictGet g5 "exercises" with | some (.arr xs) => xs | _ => []
  let exs := pad_exercises ((exItems.filterMap as_obj_kvs).take 3)
  match fixup_all 1 exs with
  | .error e => .error e
  | .ok fixed => .ok (dictSet g5 "exercises" (.arr (fixed.map Json.obj)))

/-- Lines 22-27 of `_normalize_plan`: top-level defaults and list coercions. -/
def normalize_top (kvs0 : List (String × Json)) : List (String × Json) :=
  let kvs1 := setdefault kvs0 "reading_topic" (.str "")
  let kvs2 := setdefault kvs1 "reading_text" (.str "")
  let kvs3 := if isArr? (dictGet kvs2 "questions") then kvs2 else dictSet kvs2 "questions" (.arr [])
  if isArr? (dictGet kvs3 "vocabulary") then kvs3 else dictSet kvs3 "vocabulary" (.arr [])

/-- Lines 19-20 of `_normalize_plan`: a non-dict plan is replaced by an
empty dict. -/
def plan_kvs : Json → List (String × Json)
  | .obj kvs => kvs
  | _ => []

/-- Lines 29-31 of `_normalize_plan`: `grammar = plan.get("grammar")`,
replaced by an empty dict when not itself a dict. -/
def grammar_kvs (kvs : List (String × Json)) : List (String × Json) :=
  match dictGet kvs "grammar" with
  | some (.obj gkvs) => gkvs
  | _ => []

/-- `_normalize_plan` (src/agents.py lines 18-75); the final line 74 stores
the normalized grammar back into the plan. -/
def normalize_plan (plan : Json) : Except String Json :=
  match normalize_grammar (grammar_kvs (normalize_top (plan_kvs plan))) with
  | .error e => .error e
  | .ok g =>
      .ok (.obj (dictSet (normalize_top (plan_kvs plan)) "grammar" (.obj g)))

/-! ## The Validator: `_validate_plan` (src/agents.py lines 78-91) -/

/-- The per-exercise check of lines 89-91: `"____" not in ex.get("prompt", "")`
raises on a non-dict exercise (`.get`) and propagates the `in`-semantics of
`blankIn`. -/
def validate_exercises : List Json → Except String Unit
  | [] => .ok ()
  | ex :: rest =>
      match ex with
      | .obj kvs =>
          match blankIn (dictGetD kvs "prompt" (.str "")) with
          | .error e => .error e
          | .ok true => validate_exercises rest
          | .ok false => .error "Exercise prompt missing ____"
      | _ => .error "AttributeError: get"

/-- `_validate_plan` (src/agents.py lines 78-91). -/
def validate_plan (plan : Json) : Except String Unit :=
  match plan with
  | .obj kvs =>
      let grammar := dictGetD kvs "grammar" (.obj [])
      match grammar with
      | .obj g =>
          let examples := dictGetD g "examples" (.arr [])
          let exercises := dictGetD g "exercises" (.arr [])
          match examples with
          | .arr xs =>
              if 3 ≤ xs.length ∧ xs.length ≤ 5 then
                match exercises with
                | .arr es =>
                    if es.length = 3 then validate_exercises es
                    else .error "Invalid grammar.exercises length"
                | _ => .error "Invalid grammar.exercises length"
              else .error "Invalid grammar.examples length"
          | _ => .error "Invalid grammar.examples length"
      | _ => .error "AttributeError: get"
  | _ => .error "AttributeError: get"

/-! ## Vocabulary validation: `_word_in_text` and `_validate_vocab`
(src/agents.py lines 94-125) -/

/-- A regex word character for the `\b` boundaries of `_word_in_text`
(ASCII alphanumerics and underscore; non-ASCII characters such as `ä` count
as word characters under Python's default Unicode semantics). -/
def isWordChar (c : Char) : Bool := c.isAlphanum || c == '_' || c.toNat ≥ 128

/-- Whether the lowered word `w` occurs in the lowered text `t` starting at
position `i` with word boundaries on both sides. -/
def matchesAt (w t : List Char) (i : Nat) : Bool :=
  ((t.drop i).take w.length == w)
    && (i == 0 || !isWordChar (t.getD (i - 1) ' '))
    && (i + w.length == t.length || !isWordChar (t.getD (i + w.length) ' '))

/-- `_word_in_text` (src/agents.py lines 94-101):
`re.search(r"\b" + re.escape(w) + r"\b", text, re.IGNORECASE)` for a
whitespace-stripped non-empty word.  Case folding is ASCII (`Char.toLower`),
matching Python on the ASCII words exercised here; the `\b` model assumes the
word starts and ends with word characters, as every vocabulary word here
does. -/
def word_in_text (word text : String) : Bool :=
  let w := trimChars word.data
  if w.isEmpty then false
  else
    let wl := w.map Char.toLower
    let tl := text.data.map Char.toLower
    (List.range (tl.length + 1)).any (matchesAt wl tl)

/-- `(item.get("word") or "").strip()` then the per-item checks of
`_validate_vocab` (lines 112-125), threading the set of already-seen
lowercased words. -/
def validate_vocab_items (seen : List String) (reading_text : Json) :
    List Json → Except String Unit
  | [] => .ok ()
  | item :: rest =>
      match item with
      | .obj kvs =>
          let wv := dictGetD kvs "word" .null
          let wv := if jTruthy wv then wv else .str ""
          match wv with
          | .str s =>
              let w := pyStrip s
              if w = "" then .error "Vocabulary word missing"
              else
                let wl := String.mk (w.data.map Char.toLower)
                if seen.contains wl then .error "Duplicate vocabulary word"
                else
                  if jTruthy reading_text then
                    match reading_text with
                    | .str t =>
                        if word_in_text w t then
                          validate_vocab_items (wl :: seen) reading_text rest
                        else .error ("Vocabulary word not found in reading text: " ++ w)
                    | _ => .error "TypeError: expected string or bytes-like object"
                  else validate_vocab_items (wl :: seen) reading_text rest
          | _ => .error "AttributeError: strip"
      | _ => .error "Vocabulary item not a dict"

/-- `_validate_vocab` (src/agents.py lines 104-125). -/
def validate_vocab (vocab : Json) (reading_text : Json) (n_exact : Nat) :
    Except String Unit :=
  match vocab with
  | .arr items =>
      if items.length = n_exact then validate_vocab_items [] reading_text items
      else .error "Vocabulary length invalid"
  | _ => .error "Vocabulary is not a list"

/-- `_session_params` (src/agents.py lines 128-131), reduced to the only
field `get_daily_plan` consumes structurally. -/
def session_params_vocab_n (session_length : String) : Nat :=
  if session_length = "10" then 5 else 8

/-! ## Content requests (src/agents.py lines 134-320)

The model gateway (`call_llm`) is a black box returning a text string; each
content request is modelled as a function of the response text(s) it
receives, consumed in call order from an oracle list.  Prompt construction
only feeds the gateway and never influences the returned structure, except
where building the prompt itself can raise — those raises are modelled. -/

/-- `get_reading_block` (lines 134-172): the returned value is exactly
`_safe_json_loads(content)` — no normalization and no validation. -/
def get_reading_block (response : String) : Except String Json :=
  safe_json_loads response

/-- `get_vocab_block` (lines 175-208): exactly `_safe_json_loads(content)`. -/
def get_vocab_block (response : String) : Except String Json :=
  safe_json_loads response

/-- `get_grammar_block` (lines 211-254): exactly `_safe_json_loads(content)`. -/
def get_grammar_block (response : String) : Except String Json :=
  safe_json_loads response

/-- `get_grammar_exercises_only` (lines 257-288): exactly
`_safe_json_loads(content)`. -/
def get_grammar_exercises_only (response : String) : Except String Json :=
  safe_json_loads response

/-- `(reading_text or "").strip()` on a parsed value, as `get_grammar_block`
evaluates it on line 236 when called from `get_daily_plan`: a falsy value
becomes `""`, a truthy non-string raises `AttributeError`. -/
def py_or_empty_strip (v : Json) : Except String String :=
  if jTruthy v then
    match v with
    | .str s => .ok (pyStrip s)
    | _ => .error "AttributeError: strip"
  else .ok ""

/-- Lines 306-310 of `get_daily_plan`: validate the vocabulary of the
reading block and, when validation raises, fetch a fresh vocabulary block
(one further gateway call) and store it into the reading block.  Returns the
updated reading-block dict, the remaining oracle and the calls made so far;
an exception inside the `except` handler propagates. -/
def daily_vocab_step (vocab_n : Nat) (reading_text vocab : Json)
    (rkvs : List (String × Json)) (rest1 : List String) :
    Except String (List (String × Json)) × List String × Nat :=
  match validate_vocab vocab reading_text vocab_n with
  | .ok _ => (.ok rkvs, rest1, 1)
  | .error _ =>
      match rest1 with
      | [] => (.error "transport error", [], 2)
      | r2 :: rest2 =>
          match safe_json_loads r2 with
          | .error e => (.error e, rest2, 2)
          | .ok vb =>
              match vb with
              | .obj vkvs =>
                  (.ok (dictSet rkvs "vocabulary"
                         (dictGetD vkvs "vocabulary" (.arr []))),
                   rest2, 2)
              | _ => (.error "AttributeError: get", rest2, 2)

/-- Lines 314-320 of `get_daily_plan`: `plan = {}`, merge in the reading and
grammar blocks (`dict.update` raises `TypeError` when the parsed grammar
block is not a dict), then normalize and validate. -/
def merge_and_validate (rkvs' : List (String × Json)) (grammarBlock : Json) :
    Except String Json :=
  match grammarBlock with
  | .obj gbk =>
      match normalize_plan (.obj (dictUpdate (dictUpdate [] rkvs') gbk)) with
      | .error e => .error e
      | .ok plan =>
          match validate_plan plan with
          | .error e => .error e
          | .ok _ => .ok plan
  | _ => .error "TypeError: update"

/-- Line 312 and onward of `get_daily_plan`: the grammar-block gateway call
and the final merge/normalize/validate. -/
def daily_grammar_step (rkvs' : List (String × Json)) (rest : List String)
    (c : Nat) : Except String Json × Nat :=
  match rest with
  | [] => (.error "transport error", c + 1)
  | r3 :: _ =>
      match safe_json_loads r3 with
      | .error e => (.error e, c + 1)
      | .ok grammarBlock => (merge_and_validate rkvs' grammarBlock, c + 1)

/-- `get_daily_plan` (src/agents.py lines 291-320), driven by the oracle list
`responses` of gateway reply texts, consumed in call order (reading block,
then — only when `_validate_vocab` raises — the vocabulary block, then the
grammar block).  Returns the result together with the number of gateway
calls made; an exhausted oracle models a fatal transport error. -/
def get_daily_plan (session_length : String) (responses : List String) :
    Except String Json × Nat :=
  match responses with
  | [] => (.error "transport error", 1)
  | r1 :: rest1 =>
      match safe_json_loads r1 with
      | .error e => (.error e, 1)
      | .ok reading =>
          match reading with
          | .obj rkvs =>
              match daily_vocab_step (session_params_vocab_n session_length)
                  (dictGetD rkvs "reading_text" (.str ""))
                  (dictGetD rkvs "vocabulary" (.arr [])) rkvs rest1 with
              | (.error e, _, c) => (.error e, c)
              | (.ok rkvs', rest, c) =>
                  match py_or_empty_strip (dictGetD rkvs "reading_text" (.str "")) with
                  | .error e => (.error e, c)
                  | .ok _ => daily_grammar_step rkvs' rest c
          | _ => (.error "AttributeError: get", 1)

/-! ## Grading: `check_answers` and `check_grammar`
(src/agents.py lines 323-452) -/

/-- The prompt-building loop of `check_answers` (lines 346-352): each
question must support `.get` (a dict), a `None` id is skipped, and a
list/dict id raises `TypeError` when used as a key of `answers_dict.get`. -/
def questions_prompt_ok : List Json → Except String Unit
  | [] => .ok ()
  | q :: rest =>
      match q with
      | .obj kvs =>
          match dictGetD kvs "id" .null with
          | .null => questions_prompt_ok rest
          | .arr _ => .error "TypeError: unhashable type"
          | .obj _ => .error "TypeError: unhashable type"
          | _ => questions_prompt_ok rest
      | _ => .error "AttributeError: get"

/-- The ids of the questions actually included in the grading prompt (those
whose `id` is not `None`): the graded item set. -/
def graded_ids (questions : List Json) : List Json :=
  questions.filterMap fun q =>
    match q with
    | .obj kvs =>
        match dictGetD kvs "id" .null with
        | .null => none
        | v => some v
    | _ => none

/-- `[r for r in results if isinstance(r, dict)]`, where iterating a
non-container `results` raises `TypeError` (iterating a string or a dict
succeeds but yields no dict elements). -/
def iter_result_dicts : Json → Except String (List (List (String × Json)))
  | .arr xs => .ok (xs.filterMap as_obj_kvs)
  | .str _ => .ok []
  | .obj _ => .ok []
  | _ => .error "TypeError: object is not iterable"

/-- Building `{r.get("id"): r for r in ...}` hashes every id: a list or dict
id raises `TypeError: unhashable type`. -/
def hashable_ids : List (List (String × Json)) → Except String Unit
  | [] => .ok ()
  | r :: rest =>
      match dictGetD r "id" .null with
      | .arr _ => .error "TypeError: unhashable type"
      | .obj _ => .error "TypeError: unhashable type"
      | _ => hashable_ids rest

/-- Whether a parsed id value equals the Python int `i` under Python `==`
(`True == 1` and `False == 0` because `bool` is an `int` subtype). -/
def idMatches (v : Json) (i : Nat) : Bool :=
  match v with
  | .num n => n == (i : Int)
  | .bool b => (b && i == 1) || (!b && i == 0)
  | _ => false

/-- `by_id.get(i, {})`: the last kept result dict whose id equals `i`
(later dict-comprehension entries override earlier ones), else `{}`. -/
def lookup_by_id (kept : List (List (String × Json))) (i : Nat) :
    List (String × Json) :=
  (kept.reverse.find? fun r => idMatches (dictGetD r "id" .null) i).getD []

/-- One normalized reading-feedback entry (lines 368-376). -/
def mk_answer_result (i : Nat) (r : List (String × Json)) : Json :=
  .obj [("id", .num i),
        ("verdict", dictGetD r "verdict" (.str "incorrect")),
        ("ideal_answer", dictGetD r "ideal_answer" (.str "")),
        ("tip", dictGetD r "tip" (.str "")),
        ("reason", dictGetD r "reason" (.str "content"))]

/-- One normalized grammar-feedback entry (lines 440-448). -/
def mk_grammar_result (i : Nat) (r : List (String × Json)) : Json :=
  .obj [("id", .num i),
        ("verdict", dictGetD r "verdict" (.str "incorrect")),
        ("correct_answer", dictGetD r "correct_answer" (.str "")),
        ("explanation", dictGetD r "explanation" (.str "")),
        ("reason", dictGetD r "reason" (.str "content"))]

/-- `check_answers` (src/agents.py lines 323-379), as a function of the
questions list and the grader's response text (the reading text and the
answers dict only feed the prompt). -/
def check_answers (questions : List Json) (response : String) :
    Except String Json :=
  match questions_prompt_ok questions with
  | .error e => .error e
  | .ok _ =>
      match safe_json_loads response with
      | .error e => .error e
      | .ok data =>
          match data with
          | .obj kvs =>
              let results := dictGetD kvs "results" (.arr [])
              match iter_result_dicts results with
              | .error e => .error e
              | .ok kept =>
                  match hashable_ids kept with
                  | .error e => .error e
                  | .ok _ =>
                      let normalized :=
                        [1, 2, 3].map fun i => mk_answer_result i (lookup_by_id kept i)
                      .ok (.obj (setdefault
                            (dictSet kvs "results" (.arr normalized))
                            "overall_tip" (.str "")))
          | _ => .error "AttributeError: get"

/-- The prompt-building loop of `check_grammar` (lines 413-425): each
exercise must support `.get`, and a list/dict id raises `TypeError` when
used as a key of `user_answers_dict.get` (there is no `None`-skip here). -/
def exercises_prompt_ok : List Json → Except String Unit
  | [] => .ok ()
  | ex :: rest =>
      match ex with
      | .obj kvs =>
          match dictGetD kvs "id" .null with
          | .arr _ => .error "TypeError: unhashable type"
          | .obj _ => .error "TypeError: unhashable type"
          | _ => exercises_prompt_ok rest
      | _ => .error "AttributeError: get"

/-- `(grammar or {}).get("exercises", [])` followed by `for ex in exercises
or []`: a falsy exercises value yields no iterations, a truthy non-list one
always raises while building the prompt (non-iterable, or elements that do
not support `.get`). -/
def grammar_exercises_iter (grammar : Json) : Except String (List Json) :=
  let gkvs := if jTruthy grammar then
    match grammar with
    | .obj kvs => Except.ok kvs
    | _ => Except.error "AttributeError: get"
    else Except.ok []
  match gkvs with
  | .error e => .error e
  | .ok kvs =>
      let exercises := dictGetD kvs "exercises" (.arr [])
      if jTruthy exercises then
        match exercises with
        | .arr xs => .ok xs
        | _ => .error "TypeError: object is not iterable"
      else .ok []

/-- `check_grammar` (src/agents.py lines 382-452), as a function of the
grammar block and the grader's response text (the user answers only feed the
prompt). -/
def check_grammar (grammar : Json) (response : String) : Except String Json :=
  match grammar_exercises_iter grammar with
  | .error e => .error e
  | .ok exercises =>
      match exercises_prompt_ok exercises with
      | .error e => .error e
      | .ok _ =>
          match safe_json_loads response with
          | .error e => .error e
          | .ok data =>
              match data with
              | .obj kvs =>
                  let results := dictGetD kvs "results" (.arr [])
                  match iter_result_dicts results with
                  | .error e => .error e
                  | .ok kept =>
                      match hashable_ids kept with
                      | .error e => .error e
                      | .ok _ =>
                          let normalized :=
                            [1, 2, 3].map fun i => mk_grammar_result i (lookup_by_id kept i)
                          .ok (.obj (setdefault
                                (dictSet kvs "results" (.arr normalized))
                                "overall_tip" (.str "")))
              | _ => .error "AttributeError: get"

/-- A string fixed by `strip` and non-empty: the invariant of every entry of
a normalized examples list. -/
def cleanFixed (s : String) : Prop := trimChars s.data = s.data ∧ s.data ≠ []

/-- A character the string scanner copies through unchanged: printable, not
a quote, not a backslash. -/
def plainChar (c : Char) : Bool := 32 ≤ c.toNat && c != '"' && c != '\\'

/-- The candidate string of the sanitizer claim: a JSON object whose single
member `"a"` has a string value with content `mid`. -/
def c3_body (mid : List Char) : List Char :=
  '\x7b' :: '"' :: 'a' :: '"' :: ':' :: ' ' :: '"' :: (mid ++ ['"', '\x7d'])

/-! ## Observation helpers used by theorem statements -/

/-- The `questions` value of a plan dict. -/
def plan_questions (p : Json) : Option Json :=
  match p with
  | .obj kvs => dictGet kvs "questions"
  | _ => none

/-- The `results` list of a grading result. -/
def results_of (d : Json) : Option (List Json) :=
  match d with
  | .obj kvs =>
      match dictGet kvs "results" with
      | some (.arr rs) => some rs
      | _ => none
  | _ => none

/-- The `id` values of the `results` entries of a grading result. -/
def result_ids (d : Json) : Option (List Json) :=
  (results_of d).map fun rs => rs.map fun r =>
    match r with
    | .obj kvs => dictGetD kvs "id" .null
    | _ => .null

/-- The prompt of the first grammar exercise of a plan. -/
def first_exercise_prompt (p : Json) : Option Json :=
  match p with
  | .obj kvs =>
      match dictGet kvs "grammar" with
      | some (.obj g) =>
          match dictGet g "exercises" with
          | some (.arr ((.obj e) :: _)) => dictGet e "prompt"
          | _ => none
      | _ => none
  | _ => none

/-- Whether a value is a JSON string. -/
def isStr : Json → Bool
  | .str _ => true
  | _ => false

/-! ## Concrete inputs used by witnesses and counterexamples -/

/-- An oracle whose three responses are all the empty JSON object. -/
def oracle0 : List String := ["\x7b\x7d", "\x7b\x7d", "\x7b\x7d"]

/-- The plan `get_daily_plan` builds from `oracle0`: all defaults. -/
def plan0 : Json :=
  .obj [("vocabulary", .arr []), ("reading_topic", .str ""),
        ("reading_text", .str ""), ("questions", .arr []),
        ("grammar", .obj [("topic", .str "Grammatik"), ("explanation", .str ""),
          ("examples", .arr [.str example_filler, .str example_filler,
            .str example_filler]),
          ("exercises", .arr [.obj (default_exercise 1),
            .obj (default_exercise 2), .obj (default_exercise 3)])])]

/-- An oracle whose grammar response carries an exercise whose `prompt` is a
JSON object containing the key `"____"` — Python's `in`-check accepts it. -/
def oracle1 : List String :=
  ["\x7b\x7d", "\x7b\x7d",
   "\x7b\"grammar\": \x7b\"examples\": [\"a\", \"b\", \"c\"], \"exercises\": [\x7b\"prompt\": \x7b\"____\": 0\x7d\x7d]\x7d\x7d"]

/-- A questions list whose single graded question has id 5. -/
def qs5 : List Json := [.obj [("id", .num 5), ("question", .str "x")]]

/-- The reading feedback `check_answers` builds from an empty grader
response. -/
def feedback0 : Json :=
  .obj [("results", .arr [mk_answer_result 1 [], mk_answer_result 2 [],
          mk_answer_result 3 []]),
        ("overall_tip", .str "")]

/-- The grammar feedback `check_grammar` builds from an empty grader
response. -/
def gfeedback0 : Json :=
  .obj [("results", .arr [mk_grammar_result 1 [], mk_grammar_result 2 [],
          mk_grammar_result 3 []]),
        ("overall_tip", .str "")]

/-! ## Lemmas about the Python-dict model -/

theorem dictGet_dictSet_self (kvs : List (String × Json)) (k : String) (v : Json) :
    dictGet (dictSet kvs k v) k = some v := by
  induction kvs with
  | nil => simp [dictSet, dictGet]
  | cons kv rest ih =>
      by_cases h : kv.1 = k
      · simp [dictSet, dictGet, h]
      · simpa [dictSet, dictGet, h] using ih

theorem dictGet_dictSet_ne (kvs : List (String × Json)) {k k' : String} (v : Json)
    (h : k' ≠ k) : dictGet (dictSet kvs k' v) k = dictGet kvs k := by
  induction kvs with
  | nil => simp [dictSet, dictGet, h]
  | cons kv rest ih =>
      by_cases hk : kv.1 = k'
      · simp [dictSet, dictGet, hk, h, fun hh => h (hk ▸ hh)]
      · simp [dictSet, dictGet, hk, ih]

theorem dictSet_same {kvs : List (String × Json)} {k : String} {v : Json}
    (h : dictGet kvs k = some v) : dictSet kvs k v = kvs := by
  induction kvs with
  | nil => simp [dictGet] at h
  | cons kv rest ih =>
      by_cases hk : kv.1 = k
      · simp [dictGet, hk] at h
        cases kv
        simp_all [dictSet]
      · simp [dictGet, hk] at h
        simp [dictSet, hk, ih h]

theorem dictGet_append_left {l₁ : List (String × Json)} {k : String} {v : Json}
    (l₂ : List (String × Json)) (h : dictGet l₁ k = some v) :
    dictGet (l₁ ++ l₂) k = some v := by
  induction l₁ with
  | nil => simp [dictGet] at h
  | cons kv rest ih =>
      by_cases hk : kv.1 = k
      · simp_all [dictGet]
      · simp [dictGet, hk] at h ⊢
        exact ih h

theorem dictGet_append_none {l₁ : List (String × Json)} {k : String}
    (l₂ : List (String × Json)) (h : dictGet l₁ k = none) :
    dictGet (l₁ ++ l₂) k = dictGet l₂ k := by
  induction l₁ with
  | nil => simp
  | cons kv rest ih =>
      by_cases hk : kv.1 = k
      · simp [dictGet, hk] at h
      · simp [dictGet, hk] at h ⊢
        exact ih h

theorem setdefault_of_some {kvs : List (String × Json)} {k : String} {w : Json}
    (v : Json) (h : dictGet kvs k = some w) : setdefault kvs k v = kvs := by
  simp [setdefault, h]

theorem dictGet_setdefault_self (kvs : List (String × Json)) (k : String) (v : Json) :
    dictGet (setdefault kvs k v) k = some ((dictGet kvs k).getD v) := by
  unfold setdefault
  cases h : dictGet kvs k with
  | some w => simp [h]
  | none => simp [dictGet_append_none _ h, dictGet]

theorem dictGet_setdefault_of_some {kvs : List (String × Json)} {k : String}
    {w : Json} (k' : String) (v : Json) (h : dictGet kvs k = some w) :
    dictGet (setdefault kvs k' v) k = some w := by
  unfold setdefault
  cases h' : dictGet kvs k' with
  | some w' => simpa using h
  | none => exact dictGet_append_left _ h

/-! ## Lemmas about `strip` and the placeholder search -/

theorem trimLeft_idem (l : List Char) : trimLeft (trimLeft l) = trimLeft l :=
  List.dropWhile_idempotent isPySpace l

theorem trimRight_isPre (l : List Char) : ∃ t, trimRight l ++ t = l := by
  unfold trimRight trimLeft
  obtain ⟨s, hs⟩ := List.dropWhile_suffix (l := l.reverse) (p := isPySpace)
  refine ⟨s.reverse, ?_⟩
  have := congrArg List.reverse hs
  simpa [List.reverse_append] using this

theorem head_not_space_of_trimmed {b : Char} {t : List Char}
    (h : trimLeft (b :: t) = b :: t) : isPySpace b = false := by
  by_cases hb : isPySpace b = true
  · exfalso
    unfold trimLeft at h
    rw [List.dropWhile_cons_of_pos hb] at h
    have hlen := congrArg List.length h
    have : (List.dropWhile isPySpace t).length ≤ t.length := by
      obtain ⟨s, hs⟩ := List.dropWhile_suffix (l := t) (p := isPySpace)
      have := congrArg List.length hs
      simp at this
      omega
    simp at hlen
    omega
  · simpa using hb

theorem trimLeft_trimRight_of_trimmed {l : List Char} (h : trimLeft l = l) :
    trimLeft (trimRight l) = trimRight l := by
  cases hR : trimRight l with
  | nil => simp [trimLeft]
  | cons b u =>
      obtain ⟨t, ht⟩ := trimRight_isPre l
      rw [hR] at ht
      have hl : l = b :: (u ++ t) := by
        rw [← ht]; simp
      have hb : isPySpace b = false := by
        apply head_not_space_of_trimmed (t := u ++ t)
        rw [← hl]; exact h
      unfold trimLeft
      rw [List.dropWhile_cons_of_neg (by simp [hb])]

theorem trimRight_idem (l : List Char) : trimRight (trimRight l) = trimRight l := by
  unfold trimRight
  rw [List.reverse_reverse, trimLeft_idem]

theorem trimChars_idem (l : List Char) : trimChars (trimChars l) = trimChars l := by
  unfold trimChars
  rw [trimLeft_trimRight_of_trimmed (trimLeft_idem l), trimRight_idem]

theorem beginsWith_append_self (pat t : List Char) :
    beginsWith pat (pat ++ t) = true := by
  induction pat with
  | nil => simp [beginsWith]
  | cons c cs ih => simp [beginsWith, ih]

theorem containsSeq_append_right (pat l₂ : List Char) (l₁ : List Char)
    (h : containsSeq pat l₂ = true) : containsSeq pat (l₁ ++ l₂) = true := by
  induction l₁ with
  | nil => simpa using h
  | cons c cs ih =>
      show containsSeq pat (c :: (cs ++ l₂)) = true
      unfold containsSeq
      cases pat with
      | nil => simp [beginsWith]
      | cons p ps => simp [ih]

/-! ## Lemmas about the Normalizer -/



theorem mk_data (s : String) : String.mk s.data = s := by
  cases s
  rfl

theorem eq_empty_of_data_nil {s : String} (h : s.data = []) : s = "" := by
  have := congrArg String.mk h
  rwa [mk_data] at this

theorem clean_example_some {x : Json} {s : String}
    (h : clean_example x = some s) : cleanFixed s := by
  by_cases hne : pyStrip (pyStr x) = ""
  · simp [clean_example, hne] at h
  · obtain rfl : pyStrip (pyStr x) = s := by simpa [clean_example, hne] using h
    constructor
    · have hd : (pyStrip (pyStr x)).data = trimChars (pyStr x).data := rfl
      rw [hd, trimChars_idem]
    · intro hnil
      exact hne (eq_empty_of_data_nil hnil)

theorem clean_example_of_cleanFixed {s : String} (h : cleanFixed s) :
    clean_example (.str s) = some s := by
  unfold clean_example pyStr pyStrip
  rw [h.1, mk_data]
  have : ¬s = "" := fun he => h.2 (by simp [he])
  simp [this]

theorem filterMap_clean_map_str {es : List String} (h : ∀ s ∈ es, cleanFixed s) :
    (es.map Json.str).filterMap clean_example = es := by
  induction es with
  | nil => rfl
  | cons s rest ih =>
      simp only [List.map_cons, List.filterMap_cons,
        clean_example_of_cleanFixed (h s (by simp))]
      rw [ih fun t ht => h t (by simp [ht])]

theorem filler_cleanFixed : cleanFixed example_filler := by
  constructor
  · decide
  · decide

theorem examples_mem_cleanFixed {xs : List Json} {s : String}
    (h : s ∈ cap_examples (pad_examples (xs.filterMap clean_example))) :
    cleanFixed s := by
  have hmem : s ∈ pad_examples (xs.filterMap clean_example) := by
    unfold cap_examples at h
    split at h
    · exact List.mem_of_mem_take h
    · exact h
  rcases List.mem_append.mp hmem with hl | hr
  · obtain ⟨x, _, hx⟩ := List.mem_filterMap.mp hl
    exact clean_example_some hx
  · have := List.eq_of_mem_replicate hr
    subst this
    exact filler_cleanFixed

theorem pad_examples_ge3 (l : List String) : 3 ≤ (pad_examples l).length := by
  simp [pad_examples]
  omega

theorem pad_examples_of_ge3 {l : List String} (h : 3 ≤ l.length) :
    pad_examples l = l := by
  unfold pad_examples
  rw [Nat.sub_eq_zero_of_le h]
  simp

theorem cap_examples_ge3 {l : List String} (h : 3 ≤ l.length) :
    3 ≤ (cap_examples l).length := by
  unfold cap_examples
  split
  · rw [List.length_take]
    omega
  · exact h

theorem cap_examples_le5 (l : List String) : (cap_examples l).length ≤ 5 := by
  unfold cap_examples
  split
  · rw [List.length_take]
    omega
  next h => omega

theorem cap_examples_of_le5 {l : List String} (h : l.length ≤ 5) :
    cap_examples l = l := by
  unfold cap_examples
  rw [if_neg (by omega)]

theorem pad_exercises_len {l : List (List (String × Json))} (h : l.length ≤ 3) :
    (pad_exercises l).length = 3 := by
  simp [pad_exercises]
  omega

theorem pad_exercises_of_len3 {l : List (List (String × Json))}
    (h : l.length = 3) : pad_exercises l = l := by
  unfold pad_exercises
  rw [h]
  simp

theorem filterMap_asobj_map_obj (l : List (List (String × Json))) :
    (l.map Json.obj).filterMap as_obj_kvs = l := by
  induction l with
  | nil => rfl
  | cons e rest ih => simp [as_obj_kvs, ih]

theorem blankIn_appended (p : String) :
    blankIn (.str (String.mk (trimChars p.data ++ spaceBlank))) = .ok true := by
  have : containsSeq blankChars spaceBlank = true := by decide
  simp only [blankIn, strHasBlank]
  rw [containsSeq_append_right _ _ _ this]

/-- A fully repaired exercise is a fixed point of `fixup_exercise`. -/
theorem fixup_fixed {i : Nat} {e' : List (String × Json)}
    (hid : dictGet e' "id" = some (.num i))
    (hin : (dictGet e' "instruction").isSome)
    (hpv : ∃ v, dictGet e' "prompt" = some v ∧ blankIn v = .ok true)
    (han : (dictGet e' "answer").isSome)
    (hae : (dictGet e' "answer_explanation").isSome) :
    fixup_exercise i e' = .ok e' := by
  obtain ⟨v, hv, hb⟩ := hpv
  obtain ⟨w1, hw1⟩ := Option.isSome_iff_exists.mp hin
  obtain ⟨w2, hw2⟩ := Option.isSome_iff_exists.mp han
  obtain ⟨w3, hw3⟩ := Option.isSome_iff_exists.mp hae
  simp only [fixup_exercise, dictSet_same hid, setdefault_of_some _ hw1,
    setdefault_of_some _ hv, hv, hb, setdefault_of_some _ hw2,
    setdefault_of_some _ hw3]

/-- What a successful `fixup_exercise` guarantees: the id is set, the prompt
passes the placeholder check, and the result is a fixed point. -/
theorem fixup_spec {i : Nat} {ex e' : List (String × Json)}
    (h : fixup_exercise i ex = .ok e') :
    dictGet e' "id" = some (.num i) ∧
    (∃ v, dictGet e' "prompt" = some v ∧ blankIn v = .ok true) ∧
    fixup_exercise i e' = .ok e' := by
  simp only [fixup_exercise] at h
  have hid3 : dictGet (setdefault (setdefault (dictSet ex "id" (.num i))
      "instruction" (.str "Setze das richtige Wort ein.")) "prompt"
      (.str "Ich ____ heute zu Hause.")) "id" = some (.num i) :=
    dictGet_setdefault_of_some _ _ (dictGet_setdefault_of_some _ _
      (dictGet_dictSet_self ex "id" (.num i)))
  have hin3 : (dictGet (setdefault (setdefault (dictSet ex "id" (.num i))
      "instruction" (.str "Setze das richtige Wort ein.")) "prompt"
      (.str "Ich ____ heute zu Hause.")) "instruction").isSome := by
    have h2 := dictGet_setdefault_self (dictSet ex "id" (.num i))
      "instruction" (.str "Setze das richtige Wort ein.")
    have h3 := dictGet_setdefault_of_some "prompt"
      (.str "Ich ____ heute zu Hause.") h2
    simp [h3]
  obtain ⟨v, hv⟩ := Option.isSome_iff_exists.mp (by
    have := dictGet_setdefault_self (setdefault (dictSet ex "id" (.num i))
      "instruction" (.str "Setze das richtige Wort ein.")) "prompt"
      (.str "Ich ____ heute zu Hause.")
    simp [this] :
    (dictGet (setdefault (setdefault (dictSet ex "id" (.num i))
      "instruction" (.str "Setze das richtige Wort ein.")) "prompt"
      (.str "Ich ____ heute zu Hause.")) "prompt").isSome)
  rw [hv] at h
  dsimp only at h
  obtain ⟨w1, hw1⟩ := Option.isSome_iff_exists.mp hin3
  cases hb : blankIn v with
  | error e => rw [hb] at h; exact absurd h (by simp)
  | ok b =>
      rw [hb] at h
      cases b with
      | true =>
          simp only [] at h
          obtain rfl : _ = e' := by
            have := h
            simpa using this
          set E3 := setdefault (setdefault (dictSet ex "id" (.num i))
            "instruction" (.str "Setze das richtige Wort ein.")) "prompt"
            (.str "Ich ____ heute zu Hause.") with hE3
          have hidF : dictGet (setdefault (setdefault E3 "answer" (.str ""))
              "answer_explanation" (.str "")) "id" = some (.num i) :=
            dictGet_setdefault_of_some _ _ (dictGet_setdefault_of_some _ _ hid3)
          have hpF : dictGet (setdefault (setdefault E3 "answer" (.str ""))
              "answer_explanation" (.str "")) "prompt" = some v :=
            dictGet_setdefault_of_some _ _ (dictGet_setdefault_of_some _ _ hv)
          have hinF : dictGet (setdefault (setdefault E3 "answer" (.str ""))
              "answer_explanation" (.str "")) "instruction" = some w1 :=
            dictGet_setdefault_of_some _ _ (dictGet_setdefault_of_some _ _ hw1)
          have hanF : (dictGet (setdefault (setdefault E3 "answer" (.str ""))
              "answer_explanation" (.str "")) "answer").isSome := by
            have h4 := dictGet_setdefault_self E3 "answer" (.str "")
            have h5 := dictGet_setdefault_of_some
              "answer_explanation" (.str "") h4
            simp [h5]
          have haeF : (dictGet (setdefault (setdefault E3 "answer" (.str ""))
              "answer_explanation" (.str "")) "answer_explanation").isSome := by
            have h4 := dictGet_setdefault_self (setdefault E3 "answer" (.str ""))
              "answer_explanation" (.str "")
            simp [h4]
          exact ⟨hidF, ⟨v, hpF, hb⟩, fixup_fixed hidF (by simp [hinF]) ⟨v, hpF, hb⟩ hanF haeF⟩
      | false =>
          cases v with
          | str p =>
              simp only [] at h
              obtain rfl : _ = e' := by simpa using h
              set E3 := setdefault (setdefault (dictSet ex "id" (.num i))
                "instruction" (.str "Setze das richtige Wort ein.")) "prompt"
                (.str "Ich ____ heute zu Hause.") with hE3
              set E4 := dictSet E3 "prompt"
                (.str (String.mk (trimChars p.data ++ spaceBlank))) with hE4
              have hid4 : dictGet E4 "id" = some (.num i) := by
                rw [hE4, dictGet_dictSet_ne _ _ (by decide)]
                exact hid3
              have hin4 : dictGet E4 "instruction" = some w1 := by
                rw [hE4, dictGet_dictSet_ne _ _ (by decide)]
                exact hw1
              have hp4 : dictGet E4 "prompt"
                  = some (.str (String.mk (trimChars p.data ++ spaceBlank))) :=
                dictGet_dictSet_self _ _ _
              have hidF : dictGet (setdefault (setdefault E4 "answer" (.str ""))
                  "answer_explanation" (.str "")) "id" = some (.num i) :=
                dictGet_setdefault_of_some _ _ (dictGet_setdefault_of_some _ _ hid4)
              have hpF : dictGet (setdefault (setdefault E4 "answer" (.str ""))
                  "answer_explanation" (.str "")) "prompt"
                  = some (.str (String.mk (trimChars p.data ++ spaceBlank))) :=
                dictGet_setdefault_of_some _ _ (dictGet_setdefault_of_some _ _ hp4)
              have hinF : dictGet (setdefault (setdefault E4 "answer" (.str ""))
                  "answer_explanation" (.str "")) "instruction" = some w1 :=
                dictGet_setdefault_of_some _ _ (dictGet_setdefault_of_some _ _ hin4)
              have hanF : (dictGet (setdefault (setdefault E4 "answer" (.str ""))
                  "answer_explanation" (.str "")) "answer").isSome := by
                have h4 := dictGet_setdefault_self E4 "answer" (.str "")
                have h5 := dictGet_setdefault_of_some
                  "answer_explanation" (.str "") h4
                simp [h5]
              have haeF : (dictGet (setdefault (setdefault E4 "answer" (.str ""))
                  "answer_explanation" (.str "")) "answer_explanation").isSome := by
                have h4 := dictGet_setdefault_self (setdefault E4 "answer" (.str ""))
                  "answer_explanation" (.str "")
                simp [h4]
              refine ⟨hidF, ⟨_, hpF, blankIn_appended p⟩,
                fixup_fixed hidF (by simp [hinF]) ⟨_, hpF, blankIn_appended p⟩ hanF haeF⟩
          | null => exact absurd h (by simp)
          | bool b' => exact absurd h (by simp)
          | num n => exact absurd h (by simp)
          | arr xs => exact absurd h (by simp)
          | obj kvs => exact absurd h (by simp)

/-- What a successful `fixup_all` guarantees, elementwise, together with the
fixed-point property. -/
theorem fixup_all_spec : ∀ {l l' : List (List (String × Json))} (i : Nat),
    fixup_all i l = .ok l' →
    l'.length = l.length ∧
    (∀ j (hj : j < l'.length),
      dictGet (l'.get ⟨j, hj⟩) "id" = some (.num (i + j)) ∧
      ∃ v, dictGet (l'.get ⟨j, hj⟩) "prompt" = some v ∧ blankIn v = .ok true) ∧
    fixup_all i l' = .ok l'
  | [], l', i, h => by
      obtain rfl : l' = [] := by simpa [fixup_all] using h.symm
      exact ⟨rfl, fun j hj => absurd hj (by simp), rfl⟩
  | e :: rest, l', i, h => by
      simp only [fixup_all] at h
      cases he : fixup_exercise i e with
      | error msg => rw [he] at h; exact absurd h (by simp)
      | ok e₁ =>
          rw [he] at h
          cases hr : fixup_all (i + 1) rest with
          | error msg => rw [hr] at h; exact absurd h (by simp)
          | ok rest₁ =>
              rw [hr] at h
              obtain rfl : e₁ :: rest₁ = l' := by simpa using h
              obtain ⟨hid, hpv, hfix⟩ := fixup_spec he
              obtain ⟨hlen, helts, hfixall⟩ := fixup_all_spec (i + 1) hr
              refine ⟨by simp [hlen], ?_, ?_⟩
              · intro j hj
                cases j with
                | zero => simpa using ⟨hid, hpv⟩
                | succ j' =>
                    have hj' : j' < rest₁.length := by simpa using hj
                    have hstep := helts j' hj'
                    have harith : (((i + 1 : Nat) : Int) + (j' : Nat) : Int)
                        = (((i : Nat) : Int) + ((j' + 1 : Nat) : Int)) := by
                      push_cast
                      ring
                    rw [harith] at hstep
                    simpa using hstep
              · simp only [fixup_all, hfix, hfixall]

/-- Everything a successful `normalize_grammar` guarantees about its output,
including that the output is a fixed point. -/
theorem normalize_grammar_spec {g0 g : List (String × Json)}
    (h : normalize_grammar g0 = .ok g) :
    (∃ examples : List String,
      dictGet g "examples" = some (.arr (examples.map Json.str)) ∧
      3 ≤ examples.length ∧ examples.length ≤ 5) ∧
    (∃ fixed : List (List (String × Json)),
      dictGet g "exercises" = some (.arr (fixed.map Json.obj)) ∧
      fixed.length = 3 ∧
      (∀ j (hj : j < fixed.length),
        dictGet (fixed.get ⟨j, hj⟩) "id" = some (.num (1 + j)) ∧
        ∃ v, dictGet (fixed.get ⟨j, hj⟩) "prompt" = some v ∧ blankIn v = .ok true)) ∧
    normalize_grammar g = .ok g := by
  simp only [normalize_grammar] at h
  set g1 := setdefault g0 "topic" (.str "Grammatik") with hg1
  set g2 := setdefault g1 "explanation" (.str "") with hg2
  set g3 := if isArr? (dictGet g2 "examples") then g2
    else dictSet g2 "examples" (.arr []) with hg3
  set g4 := if isArr? (dictGet g3 "exercises") then g3
    else dictSet g3 "exercises" (.arr []) with hg4
  set exampleItems := (match dictGet g4 "examples" with
    | some (.arr xs) => xs | _ => []) with hexi
  set examples := cap_examples (pad_examples (exampleItems.filterMap clean_example))
    with hexamples
  set g5 := dictSet g4 "examples" (.arr (examples.map Json.str)) with hg5
  set exItems := (match dictGet g5 "exercises" with
    | some (.arr xs) => xs | _ => []) with hexit
  set exs := pad_exercises ((exItems.filterMap as_obj_kvs).take 3) with hexs
  cases hf : fixup_all 1 exs with
  | error msg => rw [hf] at h; exact absurd h (by simp)
  | ok fixed =>
      rw [hf] at h
      obtain rfl : dictSet g5 "exercises" (.arr (fixed.map Json.obj)) = g := by
        simpa using h
      obtain ⟨hflen, hfelts, hffix⟩ := fixup_all_spec 1 hf
      -- shape facts about the output dict
      have hexlen3 : 3 ≤ examples.length :=
        cap_examples_ge3 (pad_examples_ge3 _)
      have hexlen5 : examples.length ≤ 5 := cap_examples_le5 _
      have hgetExamples :
          dictGet (dictSet g5 "exercises" (.arr (fixed.map Json.obj))) "examples"
            = some (.arr (examples.map Json.str)) := by
        rw [dictGet_dictSet_ne _ _ (by decide), hg5, dictGet_dictSet_self]
      have hgetExercises :
          dictGet (dictSet g5 "exercises" (.arr (fixed.map Json.obj))) "exercises"
            = some (.arr (fixed.map Json.obj)) := dictGet_dictSet_self _ _ _
      have hexslen : exs.length = 3 := by
        rw [hexs]
        exact pad_exercises_len (by
          have := List.length_take_le 3 (exItems.filterMap as_obj_kvs)
          omega)
      have hfixedlen : fixed.length = 3 := by rw [hflen, hexslen]
      refine ⟨⟨examples, hgetExamples, hexlen3, hexlen5⟩,
        ⟨fixed, hgetExercises, hfixedlen, hfelts⟩, ?_⟩
      -- the output is a fixed point of normalize_grammar
      have htopic : (dictGet (dictSet g5 "exercises" (.arr (fixed.map Json.obj)))
          "topic").isSome := by
        have h1 := dictGet_setdefault_self g0 "topic" (.str "Grammatik")
        obtain ⟨w, hw⟩ := Option.isSome_iff_exists.mp (by simp [← hg1, h1] :
          (dictGet g1 "topic").isSome)
        have h2 : dictGet g2 "topic" = some w := by
          rw [hg2]; exact dictGet_setdefault_of_some _ _ hw
        have h3 : dictGet g3 "topic" = some w := by
          rw [hg3]
          split
          · exact h2
          · rw [dictGet_dictSet_ne _ _ (by decide)]; exact h2
        have h4 : dictGet g4 "topic" = some w := by
          rw [hg4]
          split
          · exact h3
          · rw [dictGet_dictSet_ne _ _ (by decide)]; exact h3
        have h5 : dictGet g5 "topic" = some w := by
          rw [hg5, dictGet_dictSet_ne _ _ (by decide)]; exact h4
        have h6 : dictGet (dictSet g5 "exercises" (.arr (fixed.map Json.obj)))
            "topic" = some w := by
          rw [dictGet_dictSet_ne _ _ (by decide)]; exact h5
        simp [h6]
      have hexpl : (dictGet (dictSet g5 "exercises" (.arr (fixed.map Json.obj)))
          "explanation").isSome := by
        have h1 := dictGet_setdefault_self g1 "explanation" (.str "")
        obtain ⟨w, hw⟩ := Option.isSome_iff_exists.mp (by simp [← hg2, h1] :
          (dictGet g2 "explanation").isSome)
        have h3 : dictGet g3 "explanation" = some w := by
          rw [hg3]
          split
          · exact hw
          · rw [dictGet_dictSet_ne _ _ (by decide)]; exact hw
        have h4 : dictGet g4 "explanation" = some w := by
          rw [hg4]
          split
          · exact h3
          · rw [dictGet_dictSet_ne _ _ (by decide)]; exact h3
        have h5 : dictGet g5 "explanation" = some w := by
          rw [hg5, dictGet_dictSet_ne _ _ (by decide)]; exact h4
        have h6 : dictGet (dictSet g5 "exercises" (.arr (fixed.map Json.obj)))
            "explanation" = some w := by
          rw [dictGet_dictSet_ne _ _ (by decide)]; exact h5
        simp [h6]
      obtain ⟨wt, hwt⟩ := Option.isSome_iff_exists.mp htopic
      obtain ⟨we, hwe⟩ := Option.isSome_iff_exists.mp hexpl
      have hmem : ∀ s ∈ examples, cleanFixed s := fun s hs =>
        examples_mem_cleanFixed (hexamples ▸ hs)
      simp only [normalize_grammar,
        setdefault_of_some (Json.str "Grammatik") hwt,
        setdefault_of_some (Json.str "") hwe,
        hgetExamples, hgetExercises, isArr?, if_true,
        filterMap_clean_map_str hmem,
        pad_examples_of_ge3 hexlen3, cap_examples_of_le5 hexlen5,
        dictSet_same hgetExamples, filterMap_asobj_map_obj,
        List.take_of_length_le (le_of_eq hfixedlen),
        pad_exercises_of_len3 hfixedlen, hffix,
        dictSet_same hgetExercises]

theorem isArr?_shape {o : Option Json} (h : isArr? o = true) :
    ∃ xs, o = some (.arr xs) := by
  match o with
  | some (.arr xs) => exact ⟨xs, rfl⟩
  | none | some .null | some (.bool _) | some (.num _) | some (.str _)
  | some (.obj _) => simp [isArr?] at h

/-- The top-level normalization ensures the four reading-block fields exist
with the right shapes. -/
theorem normalize_top_spec (kvs0 : List (String × Json)) :
    (∃ w, dictGet (normalize_top kvs0) "reading_topic" = some w) ∧
    (∃ w, dictGet (normalize_top kvs0) "reading_text" = some w) ∧
    (∃ xs, dictGet (normalize_top kvs0) "questions" = some (.arr xs)) ∧
    (∃ xs, dictGet (normalize_top kvs0) "vocabulary" = some (.arr xs)) := by
  simp only [normalize_top]
  set k1 := setdefault kvs0 "reading_topic" (.str "") with hk1
  set k2 := setdefault k1 "reading_text" (.str "") with hk2
  set k3 := if isArr? (dictGet k2 "questions") then k2
    else dictSet k2 "questions" (.arr []) with hk3
  obtain ⟨w1, hw1⟩ : ∃ w, dictGet k1 "reading_topic" = some w := by
    rw [hk1, dictGet_setdefault_self]; exact ⟨_, rfl⟩
  obtain ⟨w2, hw2⟩ : ∃ w, dictGet k2 "reading_text" = some w := by
    rw [hk2, dictGet_setdefault_self]; exact ⟨_, rfl⟩
  have hw1' : dictGet k2 "reading_topic" = some w1 := by
    rw [hk2]; exact dictGet_setdefault_of_some _ _ hw1
  obtain ⟨q3, hq3⟩ : ∃ xs, dictGet k3 "questions" = some (.arr xs) := by
    rw [hk3]
    split
    next harr => exact isArr?_shape harr
    next => exact ⟨[], dictGet_dictSet_self _ _ _⟩
  have hw1'' : dictGet k3 "reading_topic" = some w1 := by
    rw [hk3]; split
    · exact hw1'
    · rw [dictGet_dictSet_ne _ _ (by decide)]; exact hw1'
  have hw2' : dictGet k3 "reading_text" = some w2 := by
    rw [hk3]; split
    · exact hw2
    · rw [dictGet_dictSet_ne _ _ (by decide)]; exact hw2
  split
  next harr =>
      obtain ⟨vs, hvs⟩ := isArr?_shape harr
      exact ⟨⟨w1, hw1''⟩, ⟨w2, hw2'⟩, ⟨q3, hq3⟩, ⟨_, hvs⟩⟩
  next =>
      refine ⟨⟨w1, ?_⟩, ⟨w2, ?_⟩, ⟨q3, ?_⟩, ⟨[], dictGet_dictSet_self _ _ _⟩⟩
      · rw [dictGet_dictSet_ne _ _ (by decide)]; exact hw1''
      · rw [dictGet_dictSet_ne _ _ (by decide)]; exact hw2'
      · rw [dictGet_dictSet_ne _ _ (by decide)]; exact hq3

/-- Storing the grammar into an already-normalized top level leaves the
top-level normalization a no-op. -/
theorem normalize_top_fixed (kvs0 : List (String × Json)) (v : Json) :
    normalize_top (dictSet (normalize_top kvs0) "grammar" v)
      = dictSet (normalize_top kvs0) "grammar" v := by
  obtain ⟨⟨w1, hw1⟩, ⟨w2, hw2⟩, ⟨qs, hqs⟩, ⟨vs, hvs⟩⟩ := normalize_top_spec kvs0
  generalize hK : normalize_top kvs0 = K at hw1 hw2 hqs hvs ⊢
  have hw1' : dictGet (dictSet K "grammar" v) "reading_topic"
      = some w1 := by rw [dictGet_dictSet_ne _ _ (by decide)]; exact hw1
  have hw2' : dictGet (dictSet K "grammar" v) "reading_text"
      = some w2 := by rw [dictGet_dictSet_ne _ _ (by decide)]; exact hw2
  have hqs' : dictGet (dictSet K "grammar" v) "questions"
      = some (.arr qs) := by rw [dictGet_dictSet_ne _ _ (by decide)]; exact hqs
  have hvs' : dictGet (dictSet K "grammar" v) "vocabulary"
      = some (.arr vs) := by rw [dictGet_dictSet_ne _ _ (by decide)]; exact hvs
  simp only [normalize_top, setdefault_of_some (Json.str "") hw1',
    setdefault_of_some (Json.str "") hw2', hqs', hvs', isArr?, if_true]

/-- Decomposition of a successful `normalize_plan`. -/
theorem normalize_plan_inv {p q : Json} (h : normalize_plan p = .ok q) :
    ∃ kvs0 g0 g, normalize_grammar g0 = .ok g ∧
      q = .obj (dictSet (normalize_top kvs0) "grammar" (.obj g)) := by
  unfold normalize_plan at h
  cases hg : normalize_grammar (grammar_kvs (normalize_top (plan_kvs p))) with
  | error e => rw [hg] at h; exact absurd h (by simp)
  | ok g =>
      rw [hg] at h
      exact ⟨plan_kvs p, _, g, hg, by simpa using h.symm⟩

/-- A successful `normalize_plan` returns a fixed point. -/
theorem normalize_plan_idem_aux {p q : Json} (h : normalize_plan p = .ok q) :
    normalize_plan q = .ok q := by
  obtain ⟨kvs0, g0, g, hg, rfl⟩ := normalize_plan_inv h
  obtain ⟨_, _, hgfix⟩ := normalize_grammar_spec hg
  have hgr : dictGet (dictSet (normalize_top kvs0) "grammar" (.obj g)) "grammar"
      = some (.obj g) := dictGet_dictSet_self _ _ _
  unfold normalize_plan plan_kvs
  rw [normalize_top_fixed]
  unfold grammar_kvs
  rw [hgr]
  simp only [hgfix, dictSet_same hgr]

/-! ## Inversion lemmas for the pipeline functions -/

theorem merge_and_validate_inv {rkvs' : List (String × Json)} {gb p : Json}
    (h : merge_and_validate rkvs' gb = .ok p) :
    ∃ x, normalize_plan x = .ok p ∧ validate_plan p = .ok () := by
  unfold merge_and_validate at h
  cases gb with
  | obj gbk =>
      dsimp only at h
      cases hn : normalize_plan (.obj (dictUpdate (dictUpdate [] rkvs') gbk)) with
      | error e => rw [hn] at h; dsimp only at h; exact absurd h (by simp)
      | ok plan =>
          rw [hn] at h
          dsimp only at h
          cases hv : validate_plan plan with
          | error e => rw [hv] at h; dsimp only at h; exact absurd h (by simp)
          | ok u =>
              rw [hv] at h
              dsimp only at h
              obtain rfl : plan = p := by simpa using h
              exact ⟨_, hn, hv⟩
  | null => exact absurd h (by simp)
  | bool b => exact absurd h (by simp)
  | num n => exact absurd h (by simp)
  | str s => exact absurd h (by simp)
  | arr xs => exact absurd h (by simp)

theorem daily_grammar_step_inv {rkvs' : List (String × Json)} {rest : List String}
    {c n : Nat} {p : Json} (h : daily_grammar_step rkvs' rest c = (.ok p, n)) :
    ∃ x, normalize_plan x = .ok p ∧ validate_plan p = .ok () := by
  unfold daily_grammar_step at h
  cases rest with
  | nil => exact absurd h (by simp)
  | cons r3 rest' =>
      dsimp only at h
      cases hp : safe_json_loads r3 with
      | error e => rw [hp] at h; dsimp only at h; exact absurd h (by simp)
      | ok gb =>
          rw [hp] at h
          dsimp only at h
          have hm : merge_and_validate rkvs' gb = .ok p := by
            have := (Prod.mk.injEq _ _ _ _).mp h
            exact this.1
          exact merge_and_validate_inv hm

/-- Success inversion for `get_daily_plan`: every plan it returns came out of
`_normalize_plan` and passed `_validate_plan`. -/
theorem get_daily_plan_inv {sl : String} {rs : List String} {p : Json} {n : Nat}
    (h : get_daily_plan sl rs = (.ok p, n)) :
    ∃ x, normalize_plan x = .ok p ∧ validate_plan p = .ok () := by
  unfold get_daily_plan at h
  cases rs with
  | nil => exact absurd h (by simp)
  | cons r1 rest1 =>
      dsimp only at h
      cases h1 : safe_json_loads r1 with
      | error e => rw [h1] at h; dsimp only at h; exact absurd h (by simp)
      | ok reading =>
          rw [h1] at h
          dsimp only at h
          cases reading with
          | obj rkvs =>
              simp only [] at h
              rcases hvs : daily_vocab_step (session_params_vocab_n sl)
                  (dictGetD rkvs "reading_text" (.str ""))
                  (dictGetD rkvs "vocabulary" (.arr [])) rkvs rest1 with
                ⟨res, rest, c⟩
              rw [hvs] at h
              cases res with
              | error e => exact absurd h (by simp)
              | ok rkvs' =>
                  simp only [] at h
                  cases hps : py_or_empty_strip (dictGetD rkvs "reading_text" (.str "")) with
                  | error e => rw [hps] at h; dsimp only at h; exact absurd h (by simp)
                  | ok s =>
                      rw [hps] at h
                      dsimp only at h
                      exact daily_grammar_step_inv h
          | null => exact absurd h (by simp)
          | bool b => exact absurd h (by simp)
          | num m => exact absurd h (by simp)
          | str s => exact absurd h (by simp)
          | arr xs => exact absurd h (by simp)

/-! ## Inversion and shape lemmas for the graders -/

theorem check_answers_inv {qs : List Json} {resp : String} {d : Json}
    (h : check_answers qs resp = .ok d) :
    ∃ kvs kept, d = .obj (setdefault
      (dictSet kvs "results"
        (.arr ([1, 2, 3].map fun i => mk_answer_result i (lookup_by_id kept i))))
      "overall_tip" (.str "")) := by
  unfold check_answers at h
  cases hq : questions_prompt_ok qs with
  | error e => rw [hq] at h; dsimp only at h; exact absurd h (by simp)
  | ok u =>
      rw [hq] at h
      dsimp only at h
      cases hp : safe_json_loads resp with
      | error e => rw [hp] at h; dsimp only at h; exact absurd h (by simp)
      | ok data =>
          rw [hp] at h
          dsimp only at h
          cases data with
          | obj kvs =>
              simp only [] at h
              cases hi : iter_result_dicts (dictGetD kvs "results" (.arr [])) with
              | error e => rw [hi] at h; dsimp only at h; exact absurd h (by simp)
              | ok kept =>
                  rw [hi] at h
                  dsimp only at h
                  cases hh : hashable_ids kept with
                  | error e => rw [hh] at h; dsimp only at h; exact absurd h (by simp)
                  | ok u' =>
                      rw [hh] at h
                      dsimp only at h
                      exact ⟨kvs, kept, by simpa using h.symm⟩
          | null => exact absurd h (by simp)
          | bool b => exact absurd h (by simp)
          | num m => exact absurd h (by simp)
          | str s => exact absurd h (by simp)
          | arr xs => exact absurd h (by simp)

theorem check_grammar_inv {g : Json} {resp : String} {d : Json}
    (h : check_grammar g resp = .ok d) :
    ∃ kvs kept, d = .obj (setdefault
      (dictSet kvs "results"
        (.arr ([1, 2, 3].map fun i => mk_grammar_result i (lookup_by_id kept i))))
      "overall_tip" (.str "")) := by
  unfold check_grammar at h
  cases hg : grammar_exercises_iter g with
  | error e => rw [hg] at h; dsimp only at h; exact absurd h (by simp)
  | ok exercises =>
      rw [hg] at h
      dsimp only at h
      cases he : exercises_prompt_ok exercises with
      | error e => rw [he] at h; dsimp only at h; exact absurd h (by simp)
      | ok u =>
          rw [he] at h
          dsimp only at h
          cases hp : safe_json_loads resp with
          | error e => rw [hp] at h; dsimp only at h; exact absurd h (by simp)
          | ok data =>
              rw [hp] at h
              dsimp only at h
              cases data with
              | obj kvs =>
                  simp only [] at h
                  cases hi : iter_result_dicts (dictGetD kvs "results" (.arr [])) with
                  | error e => rw [hi] at h; dsimp only at h; exact absurd h (by simp)
                  | ok kept =>
                      rw [hi] at h
                      dsimp only at h
                      cases hh : hashable_ids kept with
                      | error e => rw [hh] at h; dsimp only at h; exact absurd h (by simp)
                      | ok u' =>
                          rw [hh] at h
                          dsimp only at h
                          exact ⟨kvs, kept, by simpa using h.symm⟩
              | null => exact absurd h (by simp)
              | bool b => exact absurd h (by simp)
              | num m => exact absurd h (by simp)
              | str s => exact absurd h (by simp)
              | arr xs => exact absurd h (by simp)

theorem dict_results_shape (kvs : List (String × Json)) (V w : Json) :
    dictGet (setdefault (dictSet kvs "results" V) "overall_tip" w) "results"
      = some V ∧
    (dictGet (setdefault (dictSet kvs "results" V) "overall_tip" w)
      "overall_tip").isSome := by
  constructor
  · exact dictGet_setdefault_of_some _ _ (dictGet_dictSet_self _ _ _)
  · have := dictGet_setdefault_self (dictSet kvs "results" V) "overall_tip" w
    simp [this]

/-- The fields guaranteed on every normalized reading-feedback entry. -/
theorem mk_answer_result_fields (i : Nat) (r : List (String × Json)) :
    ∃ ek, mk_answer_result i r = .obj ek ∧
      dictGet ek "id" = some (.num i) ∧
      (dictGet ek "verdict").isSome ∧ (dictGet ek "ideal_answer").isSome ∧
      (dictGet ek "tip").isSome ∧ (dictGet ek "reason").isSome := by
  refine ⟨_, rfl, ?_, ?_, ?_, ?_, ?_⟩ <;> simp [dictGet]

/-- The fields guaranteed on every normalized grammar-feedback entry. -/
theorem mk_grammar_result_fields (i : Nat) (r : List (String × Json)) :
    ∃ ek, mk_grammar_result i r = .obj ek ∧
      dictGet ek "id" = some (.num i) ∧
      (dictGet ek "verdict").isSome ∧ (dictGet ek "correct_answer").isSome ∧
      (dictGet ek "explanation").isSome ∧ (dictGet ek "reason").isSome := by
  refine ⟨_, rfl, ?_, ?_, ?_, ?_, ?_⟩ <;> simp [dictGet]



/-! ## Lemmas about the parse stage, for the sanitizer claim -/



theorem plainChar_facts {c : Char} (h : plainChar c = true) :
    (c == '"') = false ∧ (c == '\\') = false ∧ ¬c.toNat < 32 := by
  simp only [plainChar, Bool.and_eq_true, bne_iff_ne, ne_eq,
    decide_eq_true_eq] at h
  obtain ⟨⟨h32, hq⟩, hb⟩ := h
  refine ⟨by simpa using hq, by simpa using hb, by omega⟩

theorem scanString_append_plain {l : List Char}
    (hp : ∀ c ∈ l, plainChar c = true) (r : List Char) :
    scanString (l ++ r) = (scanString r).map fun p => (l ++ p.1, p.2) := by
  induction l with
  | nil =>
      cases hs : scanString r with
      | error e => simp [hs, Except.map]
      | ok p => simp [hs, Except.map]
  | cons c cs ih =>
      obtain ⟨h1, h2, h3⟩ := plainChar_facts (hp c (by simp))
      have hrec := ih fun x hx => hp x (by simp [hx])
      rw [List.cons_append, scanString.eq_def]
      dsimp only
      rw [h1, h2]
      simp only [Bool.false_eq_true, if_false, if_neg h3, hrec]
      cases hs : scanString r with
      | error e => simp [hs, Except.map]
      | ok p => simp [hs, Except.map]


theorem trim_c3 (mid : List Char) : trimChars (c3_body mid) = c3_body mid := by
  have h1 : isPySpace '\x7b' = false := rfl
  have h2 : isPySpace '\x7d' = false := rfl
  have hrev : (c3_body mid).reverse
      = '\x7d' :: '"' :: (mid.reverse ++ ['"', ' ', ':', '"', 'a', '"', '\x7b']) := by
    unfold c3_body
    simp
  have hTL : trimLeft (c3_body mid) = c3_body mid := by
    unfold c3_body trimLeft
    rw [List.dropWhile_cons_of_neg (by simp [h1])]
  have hTR : trimRight (c3_body mid) = c3_body mid := by
    unfold trimRight trimLeft
    rw [hrev, List.dropWhile_cons_of_neg (by simp [h2]), ← hrev,
      List.reverse_reverse]
  unfold trimChars
  rw [hTL, hTR]

theorem extract_c3 (mid : List Char) :
    extractBraces (c3_body mid) = c3_body mid := by
  have hfind : (c3_body mid).findIdx? (fun c => c == '\x7b') = some 0 := by
    unfold c3_body
    rw [List.findIdx?_cons]
    simp
  have hrev : (c3_body mid).reverse
      = '\x7d' :: '"' :: (mid.reverse ++ ['"', ' ', ':', '"', 'a', '"', '\x7b']) := by
    unfold c3_body
    simp
  have hfind2 : (c3_body mid).reverse.findIdx? (fun c => c == '\x7d') = some 0 := by
    rw [hrev, List.findIdx?_cons]
    simp
  have hlen : (c3_body mid).length = mid.length + 9 := by
    unfold c3_body
    simp
  unfold extractBraces
  rw [hfind, hfind2, hlen]
  dsimp only
  have hpos : 0 < mid.length + 9 - 1 - 0 := by omega
  rw [if_pos hpos]
  have harith : mid.length + 9 - 1 - 0 + 1 - 0 = (c3_body mid).length := by
    rw [hlen]
    omega
  simp only [List.drop_zero, harith, List.take_length]

theorem parseVal_c3_error (k : Nat) (mid : List Char) (e : String)
    (hs : scanString (mid ++ ['"', '\x7d']) = .error e) :
    parseVal (k + 3) (c3_body mid) = .error e := by
  have ha1 : (('\x7b' : Char) == '"') = false := rfl
  have ha2 : (('\x7b' : Char) == '\x7b') = true := rfl
  have ha3 : (('"' : Char) == '"') = true := rfl
  have ha4 : (('a' : Char) == '"') = false := rfl
  have ha5 : (('a' : Char) == '\\') = false := rfl
  have ha6 : (('a'.toNat < 32)) = False := eq_false (by decide)
  have ha7 : (('"' : Char) == '\x7d') = false := rfl
  have ha8 : ((':' : Char) == ':') = true := rfl
  have hw1 : jsonWs '\x7b' = false := rfl
  have hw2 : jsonWs '"' = false := rfl
  have hw3 : jsonWs ':' = false := rfl
  have hw4 : jsonWs ' ' = true := rfl
  unfold c3_body
  simp only [parseVal, parseObjBody, skipWs, List.dropWhile, hw1, hw2, hw3, hw4,
    ha1, ha2, ha3, ha4, ha5, ha6, ha7, ha8, scanString, Bool.false_eq_true,
    if_false, if_true, hs, Except.map]

theorem parseVal_c3_ok (k : Nat) (mid : List Char)
    (hs : scanString (mid ++ ['"', '\x7d']) = .ok (mid, ['\x7d'])) :
    parseVal (k + 3) (c3_body mid)
      = .ok (.obj [("a", .str (String.mk mid))], []) := by
  have ha1 : (('\x7b' : Char) == '"') = false := rfl
  have ha2 : (('\x7b' : Char) == '\x7b') = true := rfl
  have ha3 : (('"' : Char) == '"') = true := rfl
  have ha4 : (('a' : Char) == '"') = false := rfl
  have ha5 : (('a' : Char) == '\\') = false := rfl
  have ha6 : (('a'.toNat < 32)) = False := eq_false (by decide)
  have ha7 : (('"' : Char) == '\x7d') = false := rfl
  have ha8 : ((':' : Char) == ':') = true := rfl
  have ha9 : (('\x7d' : Char) == ',') = false := rfl
  have ha10 : (('\x7d' : Char) == '\x7d') = true := rfl
  have hw1 : jsonWs '\x7b' = false := rfl
  have hw2 : jsonWs '"' = false := rfl
  have hw3 : jsonWs ':' = false := rfl
  have hw4 : jsonWs ' ' = true := rfl
  have hw5 : jsonWs '\x7d' = false := rfl
  have hkey : String.mk ['a'] = "a" := rfl
  unfold c3_body
  simp only [parseVal, parseObjBody, skipWs, List.dropWhile, hw1, hw2, hw3, hw4,
    hw5, ha1, ha2, ha3, ha4, ha5, ha6, ha7, ha8, ha9, ha10, scanString,
    Bool.false_eq_true, if_false, if_true, hs, Except.map, hkey, dictSet]

theorem c3_len (mid : List Char) :
    (c3_body mid).length + 1 = (mid.length + 7) + 3 := by
  unfold c3_body
  simp

theorem safe_json_loads_c3_error (mid : List Char) (e : String)
    (hs : scanString (mid ++ ['"', '\x7d']) = .error e) :
    safe_json_loads (String.mk (c3_body mid)) = .error e := by
  simp only [safe_json_loads]
  rw [trim_c3, extract_c3, c3_len, parseVal_c3_error _ _ _ hs]

theorem safe_json_loads_c3_ok (mid : List Char)
    (hs : scanString (mid ++ ['"', '\x7d']) = .ok (mid, ['\x7d'])) :
    safe_json_loads (String.mk (c3_body mid))
      = .ok (.obj [("a", .str (String.mk mid))]) := by
  simp only [safe_json_loads]
  rw [trim_c3, extract_c3, c3_len, parseVal_c3_ok _ _ hs]
  rfl

theorem scan_mid_newline (l₁ l₂ : List Char)
    (hp₁ : ∀ c ∈ l₁, plainChar c = true) :
    scanString ((l₁ ++ '\n' :: l₂) ++ ['"', '\x7d'])
      = .error "Invalid control character" := by
  rw [List.append_assoc, scanString_append_plain hp₁]
  have b1 : (('\n' : Char) == '"') = false := rfl
  have b2 : (('\n' : Char) == '\\') = false := rfl
  have b3 : ('\n'.toNat < 32) = True := eq_true (by decide)
  have hnl : scanString ('\n' :: (l₂ ++ ['"', '\x7d']))
      = .error "Invalid control character" := by
    rw [scanString.eq_def]
    dsimp only
    rw [b1, b2]
    simp [b3]
  rw [List.cons_append, hnl]
  rfl

theorem scan_mid_cr (l₁ l₂ : List Char)
    (hp₁ : ∀ c ∈ l₁, plainChar c = true) :
    scanString ((l₁ ++ '\r' :: l₂) ++ ['"', '\x7d'])
      = .error "Invalid control character" := by
  rw [List.append_assoc, scanString_append_plain hp₁]
  have b1 : (('\r' : Char) == '"') = false := rfl
  have b2 : (('\r' : Char) == '\\') = false := rfl
  have b3 : ('\r'.toNat < 32) = True := eq_true (by decide)
  have hcr : scanString ('\r' :: (l₂ ++ ['"', '\x7d']))
      = .error "Invalid control character" := by
    rw [scanString.eq_def]
    dsimp only
    rw [b1, b2]
    simp [b3]
  rw [List.cons_append, hcr]
  rfl

theorem scan_mid_plain (m : List Char) (hp : ∀ c ∈ m, plainChar c = true) :
    scanString (m ++ ['"', '\x7d']) = .ok (m, ['\x7d']) := by
  rw [scanString_append_plain hp]
  have b1 : (('"' : Char) == '"') = true := rfl
  have hq : scanString ['"', '\x7d'] = .ok ([], ['\x7d']) := by
    rw [scanString.eq_def]
    dsimp only
    rw [b1]
    simp
  rw [hq]
  simp [Except.map]


/-! ## Claim theorems -/

/-- Claim C1 (counterexample): the claim "every exercise's `prompt` value
contains the substring `____`" is false as stated: `get_daily_plan` can
return a plan whose first exercise `prompt` is the JSON object
`\x7b"____": 0\x7d` — not a string, hence containing no substring — because
both the Normalizer (line 68) and the Validator (line 90) test the
placeholder with Python's `in`, which on a dict checks keys. -/
theorem daily_plan_nonstring_prompt_counterexample :
    ((get_daily_plan "20" oracle1).1.toOption.bind first_exercise_prompt)
      = some (.obj [("____", .num 0)]) ∧
    isStr (.obj [("____", .num 0)]) = false :=
  ⟨by rfl, rfl⟩

/-- Claim C1 (amended): for every plan returned by `get_daily_plan`,
`plan["grammar"]["examples"]` is a list of length between 3 and 5,
`plan["grammar"]["exercises"]` is a list of exactly 3 dict entries whose
`id` fields are 1, 2, 3 in order, and every exercise's `prompt` value passes
Python's `in`-containment test for `"____"` (for string prompts this is
substring containment; prompts are not guaranteed to be strings). -/
theorem daily_plan_grammar_invariants :
    ∀ (sl : String) (rs : List String) (p : Json) (n : Nat),
      get_daily_plan sl rs = (.ok p, n) →
      ∃ (pk g : List (String × Json)) (exArr : List Json)
        (exs : List (List (String × Json))),
        p = .obj pk ∧ dictGet pk "grammar" = some (.obj g) ∧
        dictGet g "examples" = some (.arr exArr) ∧
        3 ≤ exArr.length ∧ exArr.length ≤ 5 ∧
        dictGet g "exercises" = some (.arr (exs.map Json.obj)) ∧
        exs.length = 3 ∧
        (∀ j (hj : j < exs.length),
          dictGet (exs.get ⟨j, hj⟩) "id" = some (.num (1 + j)) ∧
          ∃ v, dictGet (exs.get ⟨j, hj⟩) "prompt" = some v ∧
            blankIn v = .ok true) := by
  intro sl rs p n h
  obtain ⟨x, hn, _⟩ := get_daily_plan_inv h
  obtain ⟨kvs0, g0, g, hg, rfl⟩ := normalize_plan_inv hn
  obtain ⟨⟨examples, hex, hex3, hex5⟩, ⟨fixed, hexs, hflen, helts⟩, _⟩ :=
    normalize_grammar_spec hg
  refine ⟨_, g, examples.map Json.str, fixed,
    rfl, dictGet_dictSet_self _ _ _, hex, by simpa using hex3,
    by simpa using hex5, hexs, hflen, helts⟩

/-- Claim C1 (witness for the amended theorem): the hypothesis is
satisfiable — the all-defaults oracle yields a plan with the stated
grammar shape. -/
theorem daily_plan_grammar_invariants_witness :
    get_daily_plan "20" oracle0 = (.ok plan0, 3) ∧
    (∃ (pk g : List (String × Json)) (exArr : List Json)
      (exs : List (List (String × Json))),
      plan0 = .obj pk ∧ dictGet pk "grammar" = some (.obj g) ∧
      dictGet g "examples" = some (.arr exArr) ∧
      3 ≤ exArr.length ∧ exArr.length ≤ 5 ∧
      dictGet g "exercises" = some (.arr (exs.map Json.obj)) ∧
      exs.length = 3 ∧
      (∀ j (hj : j < exs.length),
        dictGet (exs.get ⟨j, hj⟩) "id" = some (.num (1 + j)) ∧
        ∃ v, dictGet (exs.get ⟨j, hj⟩) "prompt" = some v ∧
          blankIn v = .ok true)) :=
  ⟨by rfl, daily_plan_grammar_invariants "20" oracle0 plan0 3 (by rfl)⟩

/-- Claim C2 (counterexample): the claim "plan['questions'] is a list of
exactly 3 entries with ids exactly 1,2,3 in order" is false: neither
`_normalize_plan` (which only coerces `questions` to a list) nor
`_validate_plan` (which never looks at `questions`) enforces it, so the
all-defaults oracle yields a returned plan whose `questions` is the empty
list. -/
theorem daily_plan_questions_counterexample :
    get_daily_plan "20" oracle0 = (.ok plan0, 3) ∧
    plan_questions plan0 = some (.arr []) :=
  ⟨by rfl, rfl⟩

/-- Claim C2 (amended): for every plan returned by `get_daily_plan`,
`plan["questions"]` is a list (non-list values are replaced by the empty
list); its length and the ids of its entries are not constrained. -/
theorem daily_plan_questions_list :
    ∀ (sl : String) (rs : List String) (p : Json) (n : Nat),
      get_daily_plan sl rs = (.ok p, n) →
      ∃ qs, plan_questions p = some (.arr qs) := by
  intro sl rs p n h
  obtain ⟨x, hn, _⟩ := get_daily_plan_inv h
  obtain ⟨kvs0, g0, g, hg, rfl⟩ := normalize_plan_inv hn
  obtain ⟨_, _, ⟨qs, hqs⟩, _⟩ := normalize_top_spec kvs0
  refine ⟨qs, ?_⟩
  show dictGet (dictSet (normalize_top kvs0) "grammar" (.obj g)) "questions" = _
  rw [dictGet_dictSet_ne _ _ (by decide)]
  exact hqs

/-- Claim C2 (witness for the amended theorem). -/
theorem daily_plan_questions_list_witness :
    get_daily_plan "20" oracle0 = (.ok plan0, 3) ∧
    (∃ qs, plan_questions plan0 = some (.arr qs)) :=
  ⟨by rfl, daily_plan_questions_list "20" oracle0 plan0 3 (by rfl)⟩

/-- Claim C3 (counterexample): the claim that `_safe_json_loads` succeeds on
a candidate with a raw newline inside a string literal (returning the object
with the newline replaced by a space) is false: there is no sanitizer —
`json.loads` is called directly and rejects the raw control character. -/
theorem sanitizer_counterexample :
    safe_json_loads "\x7b\"a\": \"line1\nline2\"\x7d"
      = .error "Invalid control character" := by
  rfl

/-- Claim C3 (amended): `_safe_json_loads` performs no sanitization: for
every candidate `\x7b"a": "<l₁><LF><l₂>"\x7d` whose surrounding content is
plain (printable, no quote, no backslash), the parse fails; with a space in
place of the newline, the same candidate parses to the object unchanged.  A
newline outside any string literal is ordinary JSON whitespace and parsing
succeeds. -/
theorem parse_rejects_inner_newline :
    ∀ (l₁ l₂ : List Char),
      (∀ c ∈ l₁, plainChar c = true) → (∀ c ∈ l₂, plainChar c = true) →
      (safe_json_loads (String.mk (c3_body (l₁ ++ '\n' :: l₂)))).isOk = false ∧
      (safe_json_loads (String.mk (c3_body (l₁ ++ '\r' :: l₂)))).isOk = false ∧
      safe_json_loads (String.mk (c3_body (l₁ ++ ' ' :: l₂)))
        = .ok (.obj [("a", .str (String.mk (l₁ ++ ' ' :: l₂)))]) ∧
      safe_json_loads "\x7b\"a\":\n1\x7d" = .ok (.obj [("a", .num 1)]) := by
  intro l₁ l₂ hp₁ hp₂
  refine ⟨?_, ?_, ?_, by rfl⟩
  · rw [safe_json_loads_c3_error _ _ (scan_mid_newline l₁ l₂ hp₁)]
    rfl
  · rw [safe_json_loads_c3_error _ _ (scan_mid_cr l₁ l₂ hp₁)]
    rfl
  · refine safe_json_loads_c3_ok _ (scan_mid_plain _ ?_)
    intro c hc
    rcases List.mem_append.mp hc with h | h
    · exact hp₁ c h
    · rcases List.mem_cons.mp h with rfl | h
      · decide
      · exact hp₂ c h

/-- Claim C3 (witness for the amended theorem), at the spec's own example
`line1` / `line2`. -/
theorem parse_rejects_inner_newline_witness :
    (safe_json_loads (String.mk (c3_body ("line1".data ++ '\n' :: "line2".data)))).isOk
      = false ∧
    safe_json_loads (String.mk (c3_body ("line1".data ++ ' ' :: "line2".data)))
      = .ok (.obj [("a", .str (String.mk ("line1".data ++ ' ' :: "line2".data)))]) :=
  ⟨(parse_rejects_inner_newline "line1".data "line2".data (by decide) (by decide)).1,
   (parse_rejects_inner_newline "line1".data "line2".data (by decide) (by decide)).2.2.1⟩

/-- Claim C4 (counterexample): the claim that a parse failure triggers
exactly one repair escalation (a second, stricter model request) is false:
when the first response fails to parse, `get_daily_plan` terminates after
exactly one gateway call even though further responses are available — no
second request is ever issued. -/
theorem repair_escalation_counterexample :
    (get_daily_plan "20" ["not json", "x", "y", "z"]).2 = 1 ∧
    (get_daily_plan "20" ["not json", "x", "y", "z"]).1.isOk = false :=
  ⟨by rfl, by rfl⟩

/-- Claim C4 (amended): there is no repair escalation: a parse failure of
the first (reading-block) response terminates `get_daily_plan` immediately,
surfacing the parse error to the caller after exactly one gateway call;
zero repair attempts are performed. -/
theorem parse_failure_no_repair :
    ∀ (sl r : String) (rest : List String) (e : String),
      safe_json_loads r = .error e →
      get_daily_plan sl (r :: rest) = (.error e, 1) := by
  intro sl r rest e h
  unfold get_daily_plan
  dsimp only
  rw [h]

/-- Claim C4 (witness for the amended theorem). -/
theorem parse_failure_no_repair_witness :
    safe_json_loads "garbage" = .error "Expecting value" ∧
    get_daily_plan "20" ("garbage" :: ["x", "y", "z"])
      = (.error "Expecting value", 1) :=
  ⟨by rfl, parse_failure_no_repair "20" "garbage" ["x", "y", "z"]
    "Expecting value" (by rfl)⟩

/-- Claim C5 (code bug): the spec's Normalizer contract — total, never
raising, absorbing arbitrary model non-compliance — is the evident intent
(every other field is type-guarded), but line 68 of src/agents.py evaluates
`"____" not in ex["prompt"]` without checking that the prompt is a
container: an exercise with `prompt: 1` makes `_normalize_plan` raise
`TypeError: argument of type 'int' is not iterable`. -/
theorem normalize_raises_on_nonstring_prompt :
    normalize_plan (.obj [("grammar", .obj [("exercises",
        .arr [.obj [("prompt", .num 1)]])])])
      = .error "TypeError: argument of type is not iterable" := by
  rfl

/-- Claim C6 (counterexample): the claim that `get_grammar_block` and
`get_grammar_exercises_only` return only normalized, validated output is
false: both return the parsed JSON as-is; a grammar block with empty
`examples`/`exercises` — which `_validate_plan` rejects — is returned
unchanged. -/
theorem grammar_block_unvalidated_counterexample :
    get_grammar_block "\x7b\"grammar\": \x7b\"examples\": [], \"exercises\": []\x7d\x7d"
      = .ok (.obj [("grammar", .obj [("examples", .arr []),
          ("exercises", .arr [])])]) ∧
    validate_plan (.obj [("grammar", .obj [("examples", .arr []),
        ("exercises", .arr [])])])
      = .error "Invalid grammar.examples length" ∧
    get_grammar_exercises_only "\x7b\"exercises\": []\x7d"
      = .ok (.obj [("exercises", .arr [])]) :=
  ⟨by rfl, by rfl, by rfl⟩

/-- Claim C6 (amended): only `get_daily_plan` runs the Normalizer and
Validator — every plan it returns passes `_validate_plan` — while the four
block getters return exactly `_safe_json_loads(content)` with no
normalization and no validation. -/
theorem daily_plan_validated :
    (∀ (sl : String) (rs : List String) (p : Json) (n : Nat),
      get_daily_plan sl rs = (.ok p, n) → validate_plan p = .ok ()) ∧
    (∀ r, get_reading_block r = safe_json_loads r) ∧
    (∀ r, get_vocab_block r = safe_json_loads r) ∧
    (∀ r, get_grammar_block r = safe_json_loads r) ∧
    (∀ r, get_grammar_exercises_only r = safe_json_loads r) := by
  refine ⟨?_, fun r => rfl, fun r => rfl, fun r => rfl, fun r => rfl⟩
  intro sl rs p n h
  obtain ⟨x, _, hv⟩ := get_daily_plan_inv h
  exact hv

/-- Claim C6 (witness for the amended theorem). -/
theorem daily_plan_validated_witness :
    get_daily_plan "20" oracle0 = (.ok plan0, 3) ∧
    validate_plan plan0 = .ok () :=
  ⟨by rfl, daily_plan_validated.1 "20" oracle0 plan0 3 (by rfl)⟩

/-- Claim C7 (confirmed): normalization is idempotent — re-normalizing the
result of a successful `_normalize_plan` changes nothing (and a failing
normalization composes to the same failure). -/
theorem normalize_plan_idempotent :
    ∀ p : Json, (normalize_plan p).bind normalize_plan = normalize_plan p := by
  intro p
  cases h : normalize_plan p with
  | error e => simp only [Except.bind]
  | ok q =>
      simp only [Except.bind]
      exact normalize_plan_idem_aux h

/-- Claim C8 (confirmed): `_validate_vocab` (with `n_exact` equal to the
list length) accepts `Hund` against `"Der Hund läuft."`; rejects the absent
`Katze` with an error naming the word; rejects a case-insensitive duplicate;
rejects a length mismatch; and `_word_in_text` matches case-insensitively
as a whole word only. -/
theorem validate_vocab_examples :
    validate_vocab (.arr [.obj [("word", .str "Hund")]])
      (.str "Der Hund läuft.") 1 = .ok () ∧
    validate_vocab (.arr [.obj [("word", .str "Katze")]])
      (.str "Der Hund läuft.") 1
      = .error "Vocabulary word not found in reading text: Katze" ∧
    validate_vocab (.arr [.obj [("word", .str "Hund")],
        .obj [("word", .str "hund")]])
      (.str "Der Hund läuft.") 2 = .error "Duplicate vocabulary word" ∧
    validate_vocab (.arr [.obj [("word", .str "Hund")]])
      (.str "Der Hund läuft.") 2 = .error "Vocabulary length invalid" ∧
    word_in_text "hUnd" "Der Hund läuft." = true ∧
    word_in_text "Hun" "Der Hund läuft." = false ∧
    word_in_text "Hund" "Der Hundehütte steht." = false :=
  ⟨by rfl, by rfl, by rfl, by rfl, by rfl, by rfl, by rfl⟩

/-- Claim C9 (counterexample): the claim that the result ids cover exactly
the graded item id set is false: the grader output is always renumbered to
ids 1,2,3 regardless of the questions' ids — grading a single question with
id 5 yields results with ids 1,2,3, and 5 is not among them. -/
theorem grading_ids_counterexample :
    graded_ids qs5 = [.num 5] ∧
    ((check_answers qs5 "\x7b\x7d").toOption.bind result_ids)
      = some [.num 1, .num 2, .num 3] ∧
    Json.num 5 ∉ [Json.num 1, Json.num 2, Json.num 3] := by
  refine ⟨by rfl, by rfl, ?_⟩
  intro h
  simp [Json.num.injEq] at h

/-- Claim C9 (amended): the `results` ids of every value returned by
`check_answers` or `check_grammar` are exactly 1, 2, 3 in order, regardless
of the ids of the questions or exercises that were graded. -/
theorem grading_result_ids :
    (∀ (qs : List Json) (resp : String) (d : Json),
      check_answers qs resp = .ok d →
      result_ids d = some [.num 1, .num 2, .num 3]) ∧
    (∀ (g : Json) (resp : String) (d : Json),
      check_grammar g resp = .ok d →
      result_ids d = some [.num 1, .num 2, .num 3]) := by
  constructor
  · intro qs resp d h
    obtain ⟨kvs, kept, rfl⟩ := check_answers_inv h
    have hres := (dict_results_shape kvs
      (.arr ([1, 2, 3].map fun i => mk_answer_result i (lookup_by_id kept i)))
      (.str "")).1
    simp only [result_ids, results_of, hres]
    simp [mk_answer_result, dictGetD, dictGet]
  · intro g resp d h
    obtain ⟨kvs, kept, rfl⟩ := check_grammar_inv h
    have hres := (dict_results_shape kvs
      (.arr ([1, 2, 3].map fun i => mk_grammar_result i (lookup_by_id kept i)))
      (.str "")).1
    simp only [result_ids, results_of, hres]
    simp [mk_grammar_result, dictGetD, dictGet]

/-- Claim C9 (witness for the amended theorem). -/
theorem grading_result_ids_witness :
    check_answers [] "\x7b\x7d" = .ok feedback0 ∧
    result_ids feedback0 = some [.num 1, .num 2, .num 3] ∧
    check_grammar (.obj []) "\x7b\x7d" = .ok gfeedback0 ∧
    result_ids gfeedback0 = some [.num 1, .num 2, .num 3] :=
  ⟨by rfl, grading_result_ids.1 [] "\x7b\x7d" feedback0 (by rfl),
   by rfl, grading_result_ids.2 (.obj []) "\x7b\x7d" gfeedback0 (by rfl)⟩

/-- Claim C10 (counterexample): the claim that `check_answers` returns the
normalized shape for every parsed grader output (any JSON object) is false:
a grader output whose `results` value is the non-iterable `5` makes the
dict comprehension `for r in results` raise `TypeError` in both graders. -/
theorem grading_nonlist_results_counterexample :
    check_answers [] "\x7b\"results\": 5\x7d"
      = .error "TypeError: object is not iterable" ∧
    check_grammar (.obj []) "\x7b\"results\": 5\x7d"
      = .error "TypeError: object is not iterable" :=
  ⟨by rfl, by rfl⟩

/-- Claim C10 (amended): whenever `check_answers` returns (it raises when
the parsed output's `results` value is not iterable), its value is a dict
whose `results` is exactly 3 entries with ids 1, 2, 3 in order, each
carrying `verdict`, `ideal_answer`, `tip` and `reason` keys, with an
`overall_tip` key always present, and an entry with no matching grader
result is filled with the documented defaults; `check_grammar` guarantees
the same shape with `correct_answer` and `explanation` fields. -/
theorem grading_output_shape :
    (∀ (qs : List Json) (resp : String) (d : Json),
      check_answers qs resp = .ok d →
      ∃ K rs, d = .obj K ∧ dictGet K "results" = some (.arr rs) ∧
        rs.length = 3 ∧
        (∀ j (hj : j < rs.length), ∃ ek, rs.get ⟨j, hj⟩ = .obj ek ∧
          dictGet ek "id" = some (.num (j + 1)) ∧
          (dictGet ek "verdict").isSome ∧ (dictGet ek "ideal_answer").isSome ∧
          (dictGet ek "tip").isSome ∧ (dictGet ek "reason").isSome) ∧
        (dictGet K "overall_tip").isSome) ∧
    (∀ (g : Json) (resp : String) (d : Json),
      check_grammar g resp = .ok d →
      ∃ K rs, d = .obj K ∧ dictGet K "results" = some (.arr rs) ∧
        rs.length = 3 ∧
        (∀ j (hj : j < rs.length), ∃ ek, rs.get ⟨j, hj⟩ = .obj ek ∧
          dictGet ek "id" = some (.num (j + 1)) ∧
          (dictGet ek "verdict").isSome ∧ (dictGet ek "correct_answer").isSome ∧
          (dictGet ek "explanation").isSome ∧ (dictGet ek "reason").isSome) ∧
        (dictGet K "overall_tip").isSome) ∧
    (∀ i : Nat, mk_answer_result i []
      = .obj [("id", .num i), ("verdict", .str "incorrect"),
          ("ideal_answer", .str ""), ("tip", .str ""),
          ("reason", .str "content")]) ∧
    (∀ i : Nat, mk_grammar_result i []
      = .obj [("id", .num i), ("verdict", .str "incorrect"),
          ("correct_answer", .str ""), ("explanation", .str ""),
          ("reason", .str "content")]) := by
  refine ⟨?_, ?_, fun i => rfl, fun i => rfl⟩
  · intro qs resp d h
    obtain ⟨kvs, kept, rfl⟩ := check_answers_inv h
    obtain ⟨hres, htip⟩ := dict_results_shape kvs
      (.arr ([1, 2, 3].map fun i => mk_answer_result i (lookup_by_id kept i)))
      (.str "")
    refine ⟨_, _, rfl, hres, by simp, ?_, htip⟩
    intro j hj
    have hj3 : j < 3 := by simpa using hj
    match j, hj3 with
    | 0, _ => simpa using mk_answer_result_fields 1 (lookup_by_id kept 1)
    | 1, _ => simpa using mk_answer_result_fields 2 (lookup_by_id kept 2)
    | 2, _ => simpa using mk_answer_result_fields 3 (lookup_by_id kept 3)
  · intro g resp d h
    obtain ⟨kvs, kept, rfl⟩ := check_grammar_inv h
    obtain ⟨hres, htip⟩ := dict_results_shape kvs
      (.arr ([1, 2, 3].map fun i => mk_grammar_result i (lookup_by_id kept i)))
      (.str "")
    refine ⟨_, _, rfl, hres, by simp, ?_, htip⟩
    intro j hj
    have hj3 : j < 3 := by simpa using hj
    match j, hj3 with
    | 0, _ => simpa using mk_grammar_result_fields 1 (lookup_by_id kept 1)
    | 1, _ => simpa using mk_grammar_result_fields 2 (lookup_by_id kept 2)
    | 2, _ => simpa using mk_grammar_result_fields 3 (lookup_by_id kept 3)

/-- Claim C10 (witness for the amended theorem). -/
theorem grading_output_shape_witness :
    check_answers [] "\x7b\x7d" = .ok feedback0 ∧
    (∃ K rs, feedback0 = .obj K ∧ dictGet K "results" = some (.arr rs) ∧
      rs.length = 3 ∧
      (∀ j (hj : j < rs.length), ∃ ek, rs.get ⟨j, hj⟩ = .obj ek ∧
        dictGet ek "id" = some (.num (j + 1)) ∧
        (dictGet ek "verdict").isSome ∧ (dictGet ek "ideal_answer").isSome ∧
        (dictGet ek "tip").isSome ∧ (dictGet ek "reason").isSome) ∧
      (dictGet K "overall_tip").isSome) :=
  ⟨by rfl, grading_output_shape.1 [] "\x7b\x7d" feedback0 (by rfl)⟩

end GermanMVP
